import Mathlib

/-!
Verification of the sample-data generator
(`working-with-large-datasets/new_sample_data_generator.py`).

The script is embedded shallowly:

* NumPy's `Generator` object is modelled by an abstract `RngModel`: a family of
  deterministic draw functions indexed by the seed and by the position of the
  draw in the stream of the generator.  Each call that samples `k` values
  advances the stream position by `k`.  The model only constrains what the
  NumPy API guarantees: `integers lo hi` returns a value in `[lo, hi)` and
  `choice` over `k` items returns an index `< k`.  Universal theorems are
  proved for every model; counterexamples instantiate one concrete model.
* Floating-point numbers are idealised as exact rationals (`ℚ`).
* Calendar dates are days since 1970-01-01 (`ℤ`), timestamps are seconds
  since the epoch, matching NumPy's `datetime64[D]` / `datetime64[s]`.
* Filesystem effects are reified as a trace of `FsEvent`s (directory creation
  and chunk writes); `replay` folds a trace into the resulting file content.
-/

namespace DataGen

/-- Embedding of `np.round(x, 2)` idealised on rationals: round to 2 decimal places. -/
def round2 (x : ℚ) : ℚ := (round (x * 100) : ℚ) / 100

/-- Embedding of `np.round(x, 4)` idealised on rationals: round to 4 decimal places. -/
def round4 (x : ℚ) : ℚ := (round (x * 10000) : ℚ) / 10000

/-- Embedding of `np.clip(x, lo, hi)` on rationals. -/
def clipQ (x lo hi : ℚ) : ℚ := min (max x lo) hi

/-- Embedding of `np.clip(x, lo, hi)` on integers. -/
def clipZ (x lo hi : ℤ) : ℤ := min (max x lo) hi

/-- Embedding of `np.char.zfill(s, w)`: left-pad a string with zeros to width `w`. -/
def zfill (s : String) (w : Nat) : String :=
  String.mk (List.replicate (w - s.length) '0') ++ s

/-- Convert days since 1970-01-01 to a civil `(year, month, day)` triple
(Gregorian calendar, standard days-from-civil inverse). -/
def civilFromDays (z : ℤ) : ℤ × ℤ × ℤ :=
  let z2 := z + 719468
  let era := (if 0 ≤ z2 then z2 else z2 - 146096) / 146097
  let doe := z2 - era * 146097
  let yoe := (doe - doe / 1460 + doe / 36524 - doe / 146096) / 365
  let y := yoe + era * 400
  let doy := doe - (365 * yoe + yoe / 4 - yoe / 100)
  let mp := (5 * doy + 2) / 153
  let d := doy - (153 * mp + 2) / 5 + 1
  let m := mp + (if mp < 10 then 3 else -9)
  (y + (if m ≤ 2 then 1 else 0), m, d)

/-- The month (1..12) of an epoch-day, as computed by
`(calendar.astype('datetime64[M]') - calendar.astype('datetime64[Y]')).astype(int) + 1`. -/
def monthOfDay (d : ℤ) : ℤ := (civilFromDays d).2.1

/-- The weekday index the script computes:
`((calendar.astype('datetime64[D]').astype('int64') + 4) % 7)`.
(Day 0 of the epoch, 1970-01-01, is mapped to 4.) -/
def npWeekdayIndex (d : ℤ) : ℕ := ((d + 4) % 7).toNat

/-- Ground-truth Monday-first weekday index of an epoch-day
(Monday = 0, ..., Sunday = 6).  1970-01-01 was a Thursday, hence the +3. -/
def mondayWeekday (d : ℤ) : ℤ := (d + 3) % 7

/-- Abstract model of `np.random.default_rng`: deterministic draw functions of
the seed and the stream position.  The bounds fields record the NumPy API
guarantees the script relies on (`integers(lo, hi)` is in `[lo, hi)`,
`choice` over `k` values yields an index `< k`). -/
structure RngModel where
  intDraw : ℤ → ℤ → Nat → Nat → ℤ
  choiceDraw : Nat → List ℚ → Nat → Nat → Nat
  paretoDraw : ℚ → Nat → Nat → ℚ
  lognormalDraw : ℚ → ℚ → Nat → Nat → ℚ
  betaDraw : ℚ → ℚ → Nat → Nat → ℚ
  normalDraw : ℚ → ℚ → Nat → Nat → ℚ
  poissonDraw : ℚ → Nat → Nat → ℤ
  randomDraw : Nat → Nat → ℚ
  intDraw_lb : ∀ lo hi s p, lo < hi → lo ≤ intDraw lo hi s p
  intDraw_ub : ∀ lo hi s p, lo < hi → intDraw lo hi s p < hi
  choiceDraw_lt : ∀ k pr s p, 0 < k → choiceDraw k pr s p < k

/-- State of one `np.random.default_rng(seed)` object: the seed and the
current position in its draw stream. -/
structure Rng where
  seed : Nat
  pos : Nat
deriving DecidableEq

/-- Embedding of `np.random.default_rng(seed)`: a fresh generator at stream position 0. -/
def RngModel.defaultRng (_R : RngModel) (seed : Nat) : Rng := ⟨seed, 0⟩

/-- Embedding of `rng.integers(lo, hi, size=c)`: `c` integer draws, advancing the stream. -/
def intVec (R : RngModel) (lo hi : ℤ) (c : Nat) (g : Rng) : List ℤ × Rng :=
  ((List.range c).map fun i => R.intDraw lo hi g.seed (g.pos + i),
   ⟨g.seed, g.pos + c⟩)

/-- Embedding of `rng.choice(arr_of_size_k, size=c, p=pr)`: `c` index draws into `[0, k)`. -/
def choiceVec (R : RngModel) (k : Nat) (pr : List ℚ) (c : Nat) (g : Rng) :
    List Nat × Rng :=
  ((List.range c).map fun i => R.choiceDraw k pr g.seed (g.pos + i),
   ⟨g.seed, g.pos + c⟩)

/-- Embedding of `rng.pareto(a, size=c)`. -/
def paretoVec (R : RngModel) (a : ℚ) (c : Nat) (g : Rng) : List ℚ × Rng :=
  ((List.range c).map fun i => R.paretoDraw a g.seed (g.pos + i),
   ⟨g.seed, g.pos + c⟩)

/-- Embedding of `rng.lognormal(mean, sigma, size=c)`. -/
def lognormalVec (R : RngModel) (mean sigma : ℚ) (c : Nat) (g : Rng) :
    List ℚ × Rng :=
  ((List.range c).map fun i => R.lognormalDraw mean sigma g.seed (g.pos + i),
   ⟨g.seed, g.pos + c⟩)

/-- Embedding of `rng.beta(a, b, size=c)`. -/
def betaVec (R : RngModel) (a b : ℚ) (c : Nat) (g : Rng) : List ℚ × Rng :=
  ((List.range c).map fun i => R.betaDraw a b g.seed (g.pos + i),
   ⟨g.seed, g.pos + c⟩)

/-- Embedding of `rng.normal(loc, scale, size=c)`. -/
def normalVec (R : RngModel) (loc scale : ℚ) (c : Nat) (g : Rng) :
    List ℚ × Rng :=
  ((List.range c).map fun i => R.normalDraw loc scale g.seed (g.pos + i),
   ⟨g.seed, g.pos + c⟩)

/-- Embedding of `rng.poisson(lam, size=c)`. -/
def poissonVec (R : RngModel) (lam : ℚ) (c : Nat) (g : Rng) : List ℤ × Rng :=
  ((List.range c).map fun i => R.poissonDraw lam g.seed (g.pos + i),
   ⟨g.seed, g.pos + c⟩)

/-- Embedding of `rng.random(size=c)`. -/
def randomVec (R : RngModel) (c : Nat) (g : Rng) : List ℚ × Rng :=
  ((List.range c).map fun i => R.randomDraw g.seed (g.pos + i),
   ⟨g.seed, g.pos + c⟩)

/-- Normalize a weight vector into probabilities (`w / w.sum()`). -/
def normalize (w : List ℚ) : List ℚ := w.map (· / w.sum)

/-- A filesystem effect performed by a generator run.  `writeChunk` records one
`DataFrame.to_csv` call: the path, whether mode was `'w'` (overwrite) or `'a'`
(append), the header written (`some columns`) or omitted (`none`), and the
data rows of the chunk. -/
inductive FsEvent (ρ : Type) where
  | mkdir (dir : String)
  | writeChunk (path : String) (overwrite : Bool)
      (headerCols : Option (List String)) (rows : List ρ)
deriving DecidableEq

/-- The data rows carried by an event. -/
def FsEvent.rows {ρ : Type} : FsEvent ρ → List ρ
  | .mkdir _ => []
  | .writeChunk _ _ _ rs => rs

/-- All data rows written by a trace, in order. -/
def dataRowsOfEvents {ρ : Type} (evs : List (FsEvent ρ)) : List ρ :=
  (evs.map FsEvent.rows).flatten

/-- The `(overwrite, headerCols)` flags of the write events of a trace. -/
def writeMetas {ρ : Type} (evs : List (FsEvent ρ)) :
    List (Bool × Option (List String)) :=
  evs.filterMap fun e =>
    match e with
    | .mkdir _ => none
    | .writeChunk _ ow hdr _ => some (ow, hdr)

/-- One line of the resulting CSV file: either a header line (with its column
names, in order) or a data row. -/
inductive CsvLine (ρ : Type) where
  | header (cols : List String)
  | row (r : ρ)
deriving DecidableEq

/-- Apply one filesystem event to the current content of the output file. -/
def applyEvent {ρ : Type} (file : List (CsvLine ρ)) : FsEvent ρ → List (CsvLine ρ)
  | .mkdir _ => file
  | .writeChunk _ overwrite hdr rows =>
    let chunkLines :=
      (match hdr with
       | some cols => [CsvLine.header cols]
       | none => []) ++ rows.map CsvLine.row
    if overwrite then chunkLines else file ++ chunkLines

/-- Replay a trace of filesystem events into the final file content. -/
def replay {ρ : Type} (evs : List (FsEvent ρ)) : List (CsvLine ρ) :=
  evs.foldl applyEvent []

/-- The sizes `min(chunk_size, remaining)` produced by the chunk loop
`for start_txn_id in range(1, num_rows + 1, chunk_size)`, starting at a given
loop-variable value.  (The `0 < b` guard makes the function total; the script
validates `chunk_size > 0` before reaching the loop.) -/
def batchSizesFrom (n b start : ℕ) : List ℕ :=
  if h : start ≤ n ∧ 0 < b then
    min b (n - start + 1) :: batchSizesFrom n b (start + b)
  else []
termination_by n + 1 - start
decreasing_by omega

/-- The batch sizes of a whole run over `range(1, n + 1, b)`. -/
def batchSizes (n b : ℕ) : List ℕ := batchSizesFrom n b 1

/-! Section: `create_sales_dataset` -/

/-- Arguments of `create_sales_dataset` (the seed is passed separately, as in
the script).  Counts are `ℤ` so that non-positive arguments are expressible;
`startDay` is the epoch-day of `start_date`. -/
structure SalesConfig where
  folder : String
  csvFile : String
  numRows : ℤ
  chunkSize : ℤ
  numProducts : ℤ
  numCustomers : ℤ
  numStores : ℤ
  startDay : ℤ
  days : ℤ
  seasonality : Bool
deriving DecidableEq

/-- One data row of `large_sales_data.csv` (`date` is an epoch-day). -/
structure SalesRow where
  transaction_id : ℤ
  date : ℤ
  customer_id : ℤ
  store_id : ℤ
  channel : String
  region : String
  product_id : ℤ
  quantity : ℤ
  unit_price : ℚ
  discount_rate : ℚ
  revenue : ℚ
deriving DecidableEq, Inhabited

def salesRegions : List String :=
  ["North", "NorthEast", "NorthWest", "South", "SouthEast", "SouthWest",
   "East", "West"]

def salesRegionProb : List ℚ :=
  [18/100, 8/100, 7/100, 18/100, 8/100, 7/100, 17/100, 17/100]

def salesChannels : List String := ["online", "store", "marketplace"]

def salesChannelProb : List ℚ := [55/100, 35/100, 10/100]

/-- Embedding of `weekday_weights` of the sales (and orders) generator, in array order
(the script comment says the order is Mon..Sun). -/
def salesWeekdayWeights : List ℚ :=
  [95/100, 95/100, 1, 102/100, 108/100, 115/100, 112/100]

/-- Embedding of `month_weights` (Jan..Dec) of the sales generator. -/
def salesMonthWeights : List ℚ :=
  [1, 98/100, 1, 101/100, 102/100, 103/100, 102/100, 102/100, 103/100,
   105/100, 112/100, 115/100]

/-- Embedding of `weights = weekday_weights[weekday] * month_weights[month - 1]` of the
sales generator, one entry per day of the calendar window. -/
def salesDateWeights (startDay : ℤ) (days : ℕ) : List ℚ :=
  (List.range days).map fun (i : ℕ) =>
    let d := startDay + (i : ℤ)
    salesWeekdayWeights.getD (npWeekdayIndex d) 0 *
      salesMonthWeights.getD ((monthOfDay d).toNat - 1) 0

/-- The per-run state computed by `create_sales_dataset` before its chunk
loop: product probabilities, the per-product price table, the optional
per-day date probabilities, and the generator state after these draws. -/
structure SalesPrep where
  product_prob : List ℚ
  product_unit_price : List ℚ
  date_prob : Option (List ℚ)
  rng : Rng

/-- Lines 189-236 of the script: seed the generator, draw the product
popularity (Pareto, shifted by 1, normalized) and the per-product unit-price
table (lognormal, clipped to [5, 500], rounded to 2 decimals), and compute
the seasonal date probabilities. -/
def salesPrep (R : RngModel) (seed : Nat) (cfg : SalesConfig) : SalesPrep :=
  let g0 := R.defaultRng seed
  let P := cfg.numProducts.toNat
  let (pop0, g1) := paretoVec R (125/100) P g0
  let popularity := pop0.map (· + 1)
  let product_prob := normalize popularity
  let (price0, g2) := lognormalVec R (35/10) (7/10) P g1
  let product_unit_price := price0.map fun x => round2 (clipQ x 5 500)
  let date_prob :=
    if cfg.seasonality then
      some (normalize (salesDateWeights cfg.startDay cfg.days.toNat))
    else none
  ⟨product_prob, product_unit_price, date_prob, g2⟩

/-- Column order of the sales chunk DataFrame. -/
def salesColumns : List String :=
  ["transaction_id", "date", "customer_id", "store_id", "channel", "region",
   "product_id", "quantity", "unit_price", "discount_rate", "revenue"]

/-- One iteration body of the sales chunk loop (lines 242-287): sample every
column for `c` rows starting at transaction id `start`, in the call order of
the script, and build the chunk rows. -/
def salesChunk (R : RngModel) (cfg : SalesConfig) (pre : SalesPrep)
    (start c : ℕ) (g : Rng) : List SalesRow × Rng :=
  let (day_offsets, g1) :=
    match pre.date_prob with
    | none => intVec R 0 cfg.days c g
    | some p =>
      let (idx, g') := choiceVec R cfg.days.toNat p c g
      (idx.map fun (i : ℕ) => (i : ℤ), g')
  let date := day_offsets.map fun o => cfg.startDay + o
  let (prodIdx, g2) := choiceVec R cfg.numProducts.toNat pre.product_prob c g1
  let product_id := prodIdx.map fun (i : ℕ) => (i : ℤ) + 1
  let (customer_id, g3) := intVec R 1 (cfg.numCustomers + 1) c g2
  let (store_id, g4) := intVec R 1 (cfg.numStores + 1) c g3
  let (regionIdx, g5) := choiceVec R 8 salesRegionProb c g4
  let region := regionIdx.map fun i => salesRegions.getD i ""
  let (channelIdx, g6) := choiceVec R 3 salesChannelProb c g5
  let channel := channelIdx.map fun i => salesChannels.getD i ""
  let (quantity, g7) := intVec R 1 6 c g6
  let unit_price := prodIdx.map fun i => pre.product_unit_price.getD i 0
  let (disc0, g8) := betaVec R 2 20 c g7
  let discount_rate := disc0.map fun x => clipQ x 0 (60/100)
  let rows := (List.range c).map fun i =>
    let q : ℤ := quantity.getD i 0
    let u : ℚ := unit_price.getD i 0
    let d : ℚ := discount_rate.getD i 0
    { transaction_id := (start : ℤ) + i
      date := date.getD i 0
      customer_id := customer_id.getD i 0
      store_id := store_id.getD i 0
      channel := channel.getD i ""
      region := region.getD i ""
      product_id := product_id.getD i 0
      quantity := q
      unit_price := u
      discount_rate := round4 d
      revenue := round2 ((q : ℚ) * u * (1 - d)) : SalesRow }
  (rows, g8)

/-- The chunked-write loop of `create_sales_dataset`
(`for start_txn_id in range(1, num_rows + 1, chunk_size)`), emitting one
`writeChunk` event per iteration.  `wrote` is the script's `wrote_header`
flag: the first write uses mode `'w'` with a header, later writes append
without one.  (The `0 < b` guard makes the recursion total; the script
validates `chunk_size > 0` before the loop.) -/
def salesLoop (R : RngModel) (cfg : SalesConfig) (pre : SalesPrep)
    (n b start : ℕ) (g : Rng) (wrote : Bool) : List (FsEvent SalesRow) :=
  if h : start ≤ n ∧ 0 < b then
    let c := min b (n - start + 1)
    let res := salesChunk R cfg pre start c g
    FsEvent.writeChunk (cfg.folder ++ "/" ++ cfg.csvFile) (!wrote)
        (if wrote then none else some salesColumns) res.1 ::
      salesLoop R cfg pre n b (start + b) res.2 true
  else []
termination_by n + 1 - start
decreasing_by omega

/-- Embedding of `create_sales_dataset`: the directory is created first (line 148), then
the arguments are validated (lines 180-187), then the chunks are generated
and written.  Returns the filesystem-event trace and either the output path
or the `ValueError` message. -/
def create_sales_dataset (R : RngModel) (seed : Nat) (cfg : SalesConfig) :
    List (FsEvent SalesRow) × Except String String :=
  let ev0 : List (FsEvent SalesRow) := [.mkdir cfg.folder]
  if cfg.numRows ≤ 0 then (ev0, .error "num_rows must be > 0")
  else if cfg.chunkSize ≤ 0 then (ev0, .error "chunk_size must be > 0")
  else if cfg.numProducts ≤ 0 ∨ cfg.numCustomers ≤ 0 ∨ cfg.numStores ≤ 0 then
    (ev0, .error "num_products/num_customers/num_stores must be > 0")
  else if cfg.days ≤ 0 then (ev0, .error "days must be > 0")
  else
    let pre := salesPrep R seed cfg
    (ev0 ++
       salesLoop R cfg pre cfg.numRows.toNat cfg.chunkSize.toNat 1 pre.rng
         false,
     .ok (cfg.folder ++ "/" ++ cfg.csvFile))

/-- The data rows a `create_sales_dataset` run writes, in file order. -/
def salesDataRows (R : RngModel) (seed : Nat) (cfg : SalesConfig) :
    List SalesRow :=
  dataRowsOfEvents (create_sales_dataset R seed cfg).1

/-! Section: `create_customers_dataset` -/

/-- Arguments of `create_customers_dataset`. -/
structure CustomersConfig where
  folder : String
  csvFile : String
  numRows : ℤ
  chunkSize : ℤ
  startCustomerId : ℤ
  startDay : ℤ
  days : ℤ
deriving DecidableEq

/-- One data row of `customers.csv` (`signup_date` is an epoch-day). -/
structure CustomerRow where
  customer_id : ℤ
  age : ℤ
  purchase_amount : ℚ
  first_name : String
  last_name : String
  email : String
  phone : String
  address : String
  city : String
  state : String
  zip_code : String
  signup_date : ℤ
  loyalty_tier : String
deriving DecidableEq, Inhabited

def customerCities : List String :=
  ["New York", "Los Angeles", "Chicago", "Houston"]

def customerCityProb : List ℚ := [35/100, 25/100, 20/100, 20/100]

/-- The `state_by_city` dictionary of `create_customers_dataset`. -/
def state_by_city (c : String) : String :=
  if c = "New York" then "NY"
  else if c = "Los Angeles" then "CA"
  else if c = "Chicago" then "IL"
  else if c = "Houston" then "TX"
  else ""

def loyaltyTiers : List String := ["bronze", "silver", "gold", "platinum"]

def loyaltyTierProb : List ℚ := [55/100, 28/100, 14/100, 3/100]

/-- Column order of the customers chunk DataFrame. -/
def customersColumns : List String :=
  ["customer_id", "age", "purchase_amount", "first_name", "last_name",
   "email", "phone", "address", "city", "state", "zip_code", "signup_date",
   "loyalty_tier"]

/-- One iteration body of the customers chunk loop (lines 386-438), sampling
every column for `c` rows starting at array offset `chunkStart`. -/
def customersChunk (R : RngModel) (cfg : CustomersConfig) (chunkStart c : ℕ)
    (g : Rng) : List CustomerRow × Rng :=
  let (age0, g1) := normalVec R 41 14 c g
  let age := age0.map fun x => clipZ (round x) 18 80
  let (pa0, g2) := lognormalVec R (41/10) (75/100) c g1
  let purchase_amount := pa0.map fun x => round2 (clipQ x 5 500)
  let (signupOff, g3) := intVec R 0 cfg.days c g2
  let (cityIdx, g4) := choiceVec R 4 customerCityProb c g3
  let city := cityIdx.map fun i => customerCities.getD i ""
  let state := city.map state_by_city
  let (phoneSuffix, g5) := intVec R 0 10000 c g4
  let (streetNum, g6) := intVec R 1 10000 c g5
  let (zipInt, g7) := intVec R 10000 100000 c g6
  let (tierIdx, g8) := choiceVec R 4 loyaltyTierProb c g7
  let loyalty_tier := tierIdx.map fun i => loyaltyTiers.getD i ""
  let rows := (List.range c).map fun (i : ℕ) =>
    let cid : ℤ := cfg.startCustomerId + (chunkStart : ℤ) + (i : ℤ)
    { customer_id := cid
      age := age.getD i 0
      purchase_amount := purchase_amount.getD i 0
      first_name := "User" ++ toString cid
      last_name := "Lastname" ++ toString cid
      email := "user" ++ toString cid ++ "@example.com"
      phone := "555-" ++ zfill (toString (phoneSuffix.getD i 0)) 4
      address := toString (streetNum.getD i 0) ++ " Main St" ++ ""
      city := city.getD i ""
      state := state.getD i ""
      zip_code := zfill (toString (zipInt.getD i 0)) 5
      signup_date := cfg.startDay + signupOff.getD i 0
      loyalty_tier := loyalty_tier.getD i "" : CustomerRow }
  (rows, g8)

/-- The chunked-write loop of `create_customers_dataset`
(`for chunk_start in range(0, num_rows, chunk_size)`). -/
def customersLoop (R : RngModel) (cfg : CustomersConfig) (n b chunkStart : ℕ)
    (g : Rng) (wrote : Bool) : List (FsEvent CustomerRow) :=
  if h : chunkStart < n ∧ 0 < b then
    let c := min b (n - chunkStart)
    let res := customersChunk R cfg chunkStart c g
    FsEvent.writeChunk (cfg.folder ++ "/" ++ cfg.csvFile) (!wrote)
        (if wrote then none else some customersColumns) res.1 ::
      customersLoop R cfg n b (chunkStart + b) res.2 true
  else []
termination_by n - chunkStart
decreasing_by omega

/-- Embedding of `create_customers_dataset`: directory creation (line 334), validation
(lines 360-367), then the chunked generation and write. -/
def create_customers_dataset (R : RngModel) (seed : Nat)
    (cfg : CustomersConfig) : List (FsEvent CustomerRow) × Except String String :=
  let ev0 : List (FsEvent CustomerRow) := [.mkdir cfg.folder]
  if cfg.numRows ≤ 0 then (ev0, .error "num_rows must be > 0")
  else if cfg.chunkSize ≤ 0 then (ev0, .error "chunk_size must be > 0")
  else if cfg.startCustomerId ≤ 0 then
    (ev0, .error "start_customer_id must be > 0")
  else if cfg.days ≤ 0 then (ev0, .error "days must be > 0")
  else
    (ev0 ++
       customersLoop R cfg cfg.numRows.toNat cfg.chunkSize.toNat 0
         (R.defaultRng seed) false,
     .ok (cfg.folder ++ "/" ++ cfg.csvFile))

/-- The data rows a `create_customers_dataset` run writes, in file order. -/
def customersDataRows (R : RngModel) (seed : Nat) (cfg : CustomersConfig) :
    List CustomerRow :=
  dataRowsOfEvents (create_customers_dataset R seed cfg).1

/-! Section: `create_ratings_dataset` -/

/-- Arguments of `create_ratings_dataset`. -/
structure RatingsConfig where
  folder : String
  csvFile : String
  numRows : ℤ
  chunkSize : ℤ
  numUsers : ℤ
  numProducts : ℤ
  startDay : ℤ
  days : ℤ
  seasonality : Bool
deriving DecidableEq

/-- One data row of `ratings.csv` (`timestamp` is epoch-seconds). -/
structure RatingRow where
  user_id : ℤ
  product_id : ℤ
  rating : ℤ
  timestamp : ℤ
deriving DecidableEq, Inhabited

/-- Embedding of `weekday_weights` of the ratings generator, in array order. -/
def ratingsWeekdayWeights : List ℚ :=
  [1, 1, 1, 102/100, 105/100, 110/100, 108/100]

/-- The per-day weights `weekday_weights[weekday]` of the ratings generator. -/
def ratingsDateWeights (startDay : ℤ) (days : ℕ) : List ℚ :=
  (List.range days).map fun (i : ℕ) =>
    ratingsWeekdayWeights.getD (npWeekdayIndex (startDay + (i : ℤ))) 0

def ratingValues : List ℤ := [1, 2, 3, 4, 5]

def ratingProb : List ℚ := [5/100, 8/100, 17/100, 35/100, 35/100]

/-- Column order of the ratings chunk DataFrame. -/
def ratingsColumns : List String :=
  ["user_id", "product_id", "rating", "timestamp"]

/-- One iteration body of the ratings chunk loop (lines 523-546). -/
def ratingsChunk (R : RngModel) (cfg : RatingsConfig)
    (date_prob : Option (List ℚ)) (c : ℕ) (g : Rng) : List RatingRow × Rng :=
  let (user_id, g1) := intVec R 1 (cfg.numUsers + 1) c g
  let (product_id, g2) := intVec R 1 (cfg.numProducts + 1) c g1
  let (ratingIdx, g3) := choiceVec R 5 ratingProb c g2
  let rating := ratingIdx.map fun i => ratingValues.getD i 0
  let (day_offsets, g4) :=
    match date_prob with
    | none => intVec R 0 cfg.days c g3
    | some p =>
      let (idx, g') := choiceVec R cfg.days.toNat p c g3
      (idx.map fun (i : ℕ) => (i : ℤ), g')
  let (seconds, g5) := intVec R 0 (24 * 60 * 60) c g4
  let rows := (List.range c).map fun (i : ℕ) =>
    { user_id := user_id.getD i 0
      product_id := product_id.getD i 0
      rating := rating.getD i 0
      timestamp := cfg.startDay * 86400 + day_offsets.getD i 0 * 86400 +
        seconds.getD i 0 : RatingRow }
  (rows, g5)

/-- The chunked-write loop of `create_ratings_dataset`
(`for row_start in range(0, num_rows, chunk_size)`). -/
def ratingsLoop (R : RngModel) (cfg : RatingsConfig)
    (date_prob : Option (List ℚ)) (n b rowStart : ℕ) (g : Rng)
    (wrote : Bool) : List (FsEvent RatingRow) :=
  if h : rowStart < n ∧ 0 < b then
    let c := min b (n - rowStart)
    let res := ratingsChunk R cfg date_prob c g
    FsEvent.writeChunk (cfg.folder ++ "/" ++ cfg.csvFile) (!wrote)
        (if wrote then none else some ratingsColumns) res.1 ::
      ratingsLoop R cfg date_prob n b (rowStart + b) res.2 true
  else []
termination_by n - rowStart
decreasing_by omega

/-- Embedding of `create_ratings_dataset`: directory creation (line 476), validation
(lines 496-503), the seasonal date probabilities (lines 511-518), then the
chunked generation and write. -/
def create_ratings_dataset (R : RngModel) (seed : Nat) (cfg : RatingsConfig) :
    List (FsEvent RatingRow) × Except String String :=
  let ev0 : List (FsEvent RatingRow) := [.mkdir cfg.folder]
  if cfg.numRows ≤ 0 then (ev0, .error "num_rows must be > 0")
  else if cfg.chunkSize ≤ 0 then (ev0, .error "chunk_size must be > 0")
  else if cfg.numUsers ≤ 0 ∨ cfg.numProducts ≤ 0 then
    (ev0, .error "num_users/num_products must be > 0")
  else if cfg.days ≤ 0 then (ev0, .error "days must be > 0")
  else
    let date_prob :=
      if cfg.seasonality then
        some (normalize (ratingsDateWeights cfg.startDay cfg.days.toNat))
      else none
    (ev0 ++
       ratingsLoop R cfg date_prob cfg.numRows.toNat cfg.chunkSize.toNat 0
         (R.defaultRng seed) false,
     .ok (cfg.folder ++ "/" ++ cfg.csvFile))

/-- The data rows a `create_ratings_dataset` run writes, in file order. -/
def ratingsDataRows (R : RngModel) (seed : Nat) (cfg : RatingsConfig) :
    List RatingRow :=
  dataRowsOfEvents (create_ratings_dataset R seed cfg).1

/-! Section: `create_products_dataset` -/

/-- Arguments of `create_products_dataset`. -/
structure ProductsConfig where
  folder : String
  csvFile : String
  numRows : ℤ
  chunkSize : ℤ
deriving DecidableEq

/-- One data row of `products.csv` (`is_active` is emitted via
`astype(int)`, so it is 0 or 1). -/
structure ProductRow where
  product_id : ℤ
  category : String
  price : ℚ
  stock : ℤ
  brand : String
  is_active : ℤ
deriving DecidableEq, Inhabited

def productCategories : List String :=
  ["Electronics", "Clothing", "Home & Garden", "Sports", "Books",
   "Toys", "Food", "Beauty", "Automotive", "Health",
   "Office", "Pet Supplies", "Baby", "Jewelry", "Tools",
   "Music", "Movies", "Games", "Crafts", "Outdoor"]

def productCategoryProbRaw : List ℚ :=
  [12/100, 10/100, 8/100, 6/100, 5/100,
   5/100, 6/100, 5/100, 4/100, 5/100,
   4/100, 4/100, 3/100, 3/100, 4/100,
   4/100, 3/100, 4/100, 3/100, 7/100]

/-- Embedding of `category_prob = category_prob / category_prob.sum()`. -/
def productCategoryProb : List ℚ := normalize productCategoryProbRaw

def productBrands : List String :=
  ["Acme", "Contoso", "Globex", "Umbrella", "Initech", "Soylent", "Stark",
   "Wayne"]

def productBrandProb : List ℚ :=
  [22/100, 18/100, 14/100, 10/100, 10/100, 8/100, 10/100, 8/100]

/-- Column order of the products chunk DataFrame. -/
def productsColumns : List String :=
  ["product_id", "category", "price", "stock", "brand", "is_active"]

/-- One iteration body of the products chunk loop (lines 631-657). -/
def productsChunk (R : RngModel) (chunkStart c : ℕ) (g : Rng) :
    List ProductRow × Rng :=
  let (catIdx, g1) := choiceVec R 20 productCategoryProb c g
  let category := catIdx.map fun i => productCategories.getD i ""
  let (brandIdx, g2) := choiceVec R 8 productBrandProb c g1
  let brand := brandIdx.map fun i => productBrands.getD i ""
  let (price0, g3) := lognormalVec R (36/10) (75/100) c g2
  let price := price0.map fun x => round2 (clipQ x 5 500)
  let (stock0, g4) := poissonVec R 50 c g3
  let stock := stock0.map fun x => clipZ x 0 1000
  let (act0, g5) := randomVec R c g4
  let is_active := act0.map fun x => if x < 96/100 then (1 : ℤ) else 0
  let rows := (List.range c).map fun (i : ℕ) =>
    { product_id := 1 + (chunkStart : ℤ) + (i : ℤ)
      category := category.getD i ""
      price := price.getD i 0
      stock := stock.getD i 0
      brand := brand.getD i ""
      is_active := is_active.getD i 0 : ProductRow }
  (rows, g5)

/-- The chunked-write loop of `create_products_dataset`
(`for chunk_start in range(0, num_rows, chunk_size)`). -/
def productsLoop (R : RngModel) (cfg : ProductsConfig) (n b chunkStart : ℕ)
    (g : Rng) (wrote : Bool) : List (FsEvent ProductRow) :=
  if h : chunkStart < n ∧ 0 < b then
    let c := min b (n - chunkStart)
    let res := productsChunk R chunkStart c g
    FsEvent.writeChunk (cfg.folder ++ "/" ++ cfg.csvFile) (!wrote)
        (if wrote then none else some productsColumns) res.1 ::
      productsLoop R cfg n b (chunkStart + b) res.2 true
  else []
termination_by n - chunkStart
decreasing_by omega

/-- Embedding of `create_products_dataset`: directory creation (line 579), validation
(lines 599-602), then the chunked generation and write. -/
def create_products_dataset (R : RngModel) (seed : Nat)
    (cfg : ProductsConfig) : List (FsEvent ProductRow) × Except String String :=
  let ev0 : List (FsEvent ProductRow) := [.mkdir cfg.folder]
  if cfg.numRows ≤ 0 then (ev0, .error "num_rows must be > 0")
  else if cfg.chunkSize ≤ 0 then (ev0, .error "chunk_size must be > 0")
  else
    (ev0 ++
       productsLoop R cfg cfg.numRows.toNat cfg.chunkSize.toNat 0
         (R.defaultRng seed) false,
     .ok (cfg.folder ++ "/" ++ cfg.csvFile))

/-- The data rows a `create_products_dataset` run writes, in file order. -/
def productsDataRows (R : RngModel) (seed : Nat) (cfg : ProductsConfig) :
    List ProductRow :=
  dataRowsOfEvents (create_products_dataset R seed cfg).1

/-! Section: `create_transactions_dataset` -/

/-- Arguments of `create_transactions_dataset` (`yearProb` is the
`year_prob` tuple, kept as a list so wrong lengths are expressible). -/
structure TransactionsConfig where
  folder : String
  csvFile : String
  numRows : ℤ
  chunkSize : ℤ
  numCustomers : ℤ
  numProducts : ℤ
  yearProb : List ℚ
deriving DecidableEq

/-- One data row of `transactions.csv` (`transaction_date` is an epoch-day). -/
structure TransactionRow where
  transaction_id : ℤ
  year : ℤ
  customer_id : ℤ
  amount : ℚ
  product_id : ℤ
  transaction_date : ℤ
  payment_method : String
deriving DecidableEq, Inhabited

def transactionYears : List ℤ := [2022, 2023, 2024]

def paymentMethods : List String := ["card", "cash", "paypal", "bank_transfer"]

def paymentProb : List ℚ := [62/100, 12/100, 18/100, 8/100]

/-- Embedding of `year_start` as epoch-days: 2022-01-01, 2023-01-01, 2024-01-01. -/
def yearStart (y : ℤ) : ℤ :=
  if y = 2022 then 18993 else if y = 2023 then 19358 else 19723

/-- Embedding of `year_days`: the day count of each of the three years. -/
def yearDays (y : ℤ) : ℤ := if y = 2024 then 366 else 365

/-- Scatter the per-year day-offset draws back to row order, mirroring the
boolean-mask assignment `day_offsets[mask] = offsets`: the `j`-th row whose
year is `y` receives the `j`-th entry drawn for year `y`. -/
def scatterByYear : List ℤ → List ℤ → List ℤ → List ℤ → List ℤ
  | [], _, _, _ => []
  | y :: ys, o22, o23, o24 =>
    if y = 2022 then o22.headD 0 :: scatterByYear ys o22.tail o23 o24
    else if y = 2023 then o23.headD 0 :: scatterByYear ys o22 o23.tail o24
    else o24.headD 0 :: scatterByYear ys o22 o23 o24.tail

/-- Column order of the transactions chunk DataFrame. -/
def transactionsColumns : List String :=
  ["transaction_id", "year", "customer_id", "amount", "product_id",
   "transaction_date", "payment_method"]

/-- One iteration body of the transactions chunk loop (lines 738-773): the
date offsets are drawn per year, one `rng.integers` call per year with as
many draws as that chunk has rows of that year, then scattered back to row
order.  (A year with no rows issues no call, exactly like the
`if mask.any()` guard, since a size-0 draw leaves the stream unchanged.) -/
def transactionsChunk (R : RngModel) (cfg : TransactionsConfig)
    (year_prob_arr : List ℚ) (chunkStart c : ℕ) (g : Rng) :
    List TransactionRow × Rng :=
  let (yearIdx, g1) := choiceVec R 3 year_prob_arr c g
  let year := yearIdx.map fun i => transactionYears.getD i 0
  let (customer_id, g2) := intVec R 1 (cfg.numCustomers + 1) c g1
  let (product_id, g3) := intVec R 1 (cfg.numProducts + 1) c g2
  let (amount0, g4) := lognormalVec R (42/10) (8/10) c g3
  let amount := amount0.map fun x => round2 (clipQ x 10 1000)
  let (o22, g5) := intVec R 0 (yearDays 2022) (year.count 2022) g4
  let (o23, g6) := intVec R 0 (yearDays 2023) (year.count 2023) g5
  let (o24, g7) := intVec R 0 (yearDays 2024) (year.count 2024) g6
  let day_offsets := scatterByYear year o22 o23 o24
  let (payIdx, g8) := choiceVec R 4 paymentProb c g7
  let payment_method := payIdx.map fun i => paymentMethods.getD i ""
  let rows := (List.range c).map fun (i : ℕ) =>
    let y := year.getD i 0
    { transaction_id := 1 + (chunkStart : ℤ) + (i : ℤ)
      year := y
      customer_id := customer_id.getD i 0
      amount := amount.getD i 0
      product_id := product_id.getD i 0
      transaction_date := yearStart y + day_offsets.getD i 0
      payment_method := payment_method.getD i "" : TransactionRow }
  (rows, g8)

/-- The chunked-write loop of `create_transactions_dataset`
(`for chunk_start in range(0, num_rows, chunk_size)`). -/
def transactionsLoop (R : RngModel) (cfg : TransactionsConfig)
    (year_prob_arr : List ℚ) (n b chunkStart : ℕ) (g : Rng) (wrote : Bool) :
    List (FsEvent TransactionRow) :=
  if h : chunkStart < n ∧ 0 < b then
    let c := min b (n - chunkStart)
    let res := transactionsChunk R cfg year_prob_arr chunkStart c g
    FsEvent.writeChunk (cfg.folder ++ "/" ++ cfg.csvFile) (!wrote)
        (if wrote then none else some transactionsColumns) res.1 ::
      transactionsLoop R cfg year_prob_arr n b (chunkStart + b) res.2 true
  else []
termination_by n - chunkStart
decreasing_by omega

/-- Embedding of `create_transactions_dataset`: directory creation (line 691), validation
(lines 711-718, the `year_prob` length check last), normalization of the
year probabilities, then the chunked generation and write. -/
def create_transactions_dataset (R : RngModel) (seed : Nat)
    (cfg : TransactionsConfig) :
    List (FsEvent TransactionRow) × Except String String :=
  let ev0 : List (FsEvent TransactionRow) := [.mkdir cfg.folder]
  if cfg.numRows ≤ 0 then (ev0, .error "num_rows must be > 0")
  else if cfg.chunkSize ≤ 0 then (ev0, .error "chunk_size must be > 0")
  else if cfg.numCustomers ≤ 0 ∨ cfg.numProducts ≤ 0 then
    (ev0, .error "num_customers/num_products must be > 0")
  else if cfg.yearProb.length ≠ 3 then
    (ev0, .error "year_prob must have 3 elements for years 2022/2023/2024")
  else
    let year_prob_arr := normalize cfg.yearProb
    (ev0 ++
       transactionsLoop R cfg year_prob_arr cfg.numRows.toNat
         cfg.chunkSize.toNat 0 (R.defaultRng seed) false,
     .ok (cfg.folder ++ "/" ++ cfg.csvFile))

/-- The data rows a `create_transactions_dataset` run writes, in file order. -/
def transactionsDataRows (R : RngModel) (seed : Nat)
    (cfg : TransactionsConfig) : List TransactionRow :=
  dataRowsOfEvents (create_transactions_dataset R seed cfg).1

/-! Section: `create_orders_dataset` -/

/-- Arguments of `create_orders_dataset`. -/
structure OrdersConfig where
  folder : String
  csvFile : String
  numRows : ℤ
  chunkSize : ℤ
  numProducts : ℤ
  numCustomers : ℤ
  numStores : ℤ
  startDay : ℤ
  days : ℤ
  seasonality : Bool
deriving DecidableEq

/-- One data row of `orders.csv` (`order_date` is an epoch-day). -/
structure OrderRow where
  order_id : ℤ
  product_id : ℤ
  quantity : ℤ
  price : ℚ
  customer_id : ℤ
  order_date : ℤ
  store_id : ℤ
  channel : String
  status : String
deriving DecidableEq, Inhabited

def orderStatuses : List String :=
  ["paid", "shipped", "delivered", "returned", "cancelled"]

def orderStatusProb : List ℚ := [18/100, 20/100, 55/100, 4/100, 3/100]

/-- The per-day weights `weekday_weights[weekday]` of the orders generator
(weekday factor only, no month factor; same weight array as sales). -/
def ordersDateWeights (startDay : ℤ) (days : ℕ) : List ℚ :=
  (List.range days).map fun (i : ℕ) =>
    salesWeekdayWeights.getD (npWeekdayIndex (startDay + (i : ℤ))) 0

/-- The per-run state computed by `create_orders_dataset` before its chunk
loop (lines 844-870). -/
structure OrdersPrep where
  product_prob : List ℚ
  product_unit_price : List ℚ
  date_prob : Option (List ℚ)
  rng : Rng

/-- Lines 844-870 of the script: seed the generator, draw the product
popularity (Pareto with shape 1.35) and the per-product unit-price table
(lognormal, clipped to [10, 500], rounded), and the seasonal date
probabilities. -/
def ordersPrep (R : RngModel) (seed : Nat) (cfg : OrdersConfig) : OrdersPrep :=
  let g0 := R.defaultRng seed
  let P := cfg.numProducts.toNat
  let (pop0, g1) := paretoVec R (135/100) P g0
  let popularity := pop0.map (· + 1)
  let product_prob := normalize popularity
  let (price0, g2) := lognormalVec R (35/10) (7/10) P g1
  let product_unit_price := price0.map fun x => round2 (clipQ x 10 500)
  let date_prob :=
    if cfg.seasonality then
      some (normalize (ordersDateWeights cfg.startDay cfg.days.toNat))
    else none
  ⟨product_prob, product_unit_price, date_prob, g2⟩

/-- Column order of the orders chunk DataFrame. -/
def ordersColumns : List String :=
  ["order_id", "product_id", "quantity", "price", "customer_id",
   "order_date", "store_id", "channel", "status"]

/-- One iteration body of the orders chunk loop (lines 872-904). -/
def ordersChunk (R : RngModel) (cfg : OrdersConfig) (pre : OrdersPrep)
    (chunkStart c : ℕ) (g : Rng) : List OrderRow × Rng :=
  let (prodIdx, g1) := choiceVec R cfg.numProducts.toNat pre.product_prob c g
  let product_id := prodIdx.map fun (i : ℕ) => (i : ℤ) + 1
  let (quantity, g2) := intVec R 1 10 c g1
  let unit_price := prodIdx.map fun i => pre.product_unit_price.getD i 0
  let (customer_id, g3) := intVec R 1 (cfg.numCustomers + 1) c g2
  let (store_id, g4) := intVec R 1 (cfg.numStores + 1) c g3
  let (channelIdx, g5) := choiceVec R 3 salesChannelProb c g4
  let channel := channelIdx.map fun i => salesChannels.getD i ""
  let (statusIdx, g6) := choiceVec R 5 orderStatusProb c g5
  let status := statusIdx.map fun i => orderStatuses.getD i ""
  let (day_offsets, g7) :=
    match pre.date_prob with
    | none => intVec R 0 cfg.days c g6
    | some p =>
      let (idx, g') := choiceVec R cfg.days.toNat p c g6
      (idx.map fun (i : ℕ) => (i : ℤ), g')
  let rows := (List.range c).map fun (i : ℕ) =>
    let q : ℤ := quantity.getD i 0
    let u : ℚ := unit_price.getD i 0
    { order_id := 1 + (chunkStart : ℤ) + (i : ℤ)
      product_id := product_id.getD i 0
      quantity := q
      price := round2 (u * (q : ℚ))
      customer_id := customer_id.getD i 0
      order_date := cfg.startDay + day_offsets.getD i 0
      store_id := store_id.getD i 0
      channel := channel.getD i ""
      status := status.getD i "" : OrderRow }
  (rows, g7)

/-- The chunked-write loop of `create_orders_dataset`
(`for chunk_start in range(0, num_rows, chunk_size)`). -/
def ordersLoop (R : RngModel) (cfg : OrdersConfig) (pre : OrdersPrep)
    (n b chunkStart : ℕ) (g : Rng) (wrote : Bool) : List (FsEvent OrderRow) :=
  if h : chunkStart < n ∧ 0 < b then
    let c := min b (n - chunkStart)
    let res := ordersChunk R cfg pre chunkStart c g
    FsEvent.writeChunk (cfg.folder ++ "/" ++ cfg.csvFile) (!wrote)
        (if wrote then none else some ordersColumns) res.1 ::
      ordersLoop R cfg pre n b (chunkStart + b) res.2 true
  else []
termination_by n - chunkStart
decreasing_by omega

/-- Embedding of `create_orders_dataset`: directory creation (line 813), validation
(lines 835-842), the pre-loop tables, then the chunked generation and
write. -/
def create_orders_dataset (R : RngModel) (seed : Nat) (cfg : OrdersConfig) :
    List (FsEvent OrderRow) × Except String String :=
  let ev0 : List (FsEvent OrderRow) := [.mkdir cfg.folder]
  if cfg.numRows ≤ 0 then (ev0, .error "num_rows must be > 0")
  else if cfg.chunkSize ≤ 0 then (ev0, .error "chunk_size must be > 0")
  else if cfg.numProducts ≤ 0 ∨ cfg.numCustomers ≤ 0 ∨ cfg.numStores ≤ 0 then
    (ev0, .error "num_products/num_customers/num_stores must be > 0")
  else if cfg.days ≤ 0 then (ev0, .error "days must be > 0")
  else
    let pre := ordersPrep R seed cfg
    (ev0 ++
       ordersLoop R cfg pre cfg.numRows.toNat cfg.chunkSize.toNat 0 pre.rng
         false,
     .ok (cfg.folder ++ "/" ++ cfg.csvFile))

/-- The data rows a `create_orders_dataset` run writes, in file order. -/
def ordersDataRows (R : RngModel) (seed : Nat) (cfg : OrdersConfig) :
    List OrderRow :=
  dataRowsOfEvents (create_orders_dataset R seed cfg).1

/-! Section: concrete random-generator models.

Universal theorems hold for every `RngModel`.  Counterexamples and witnesses
instantiate one: `streamModel` exposes the stream position (each draw returns
its position in the seeded stream, so stream-consumption order is visible in
the output), and `c4Model` fixes the draws at particular values. -/

/-- A concrete generator model whose draws reveal the stream position. -/
def streamModel : RngModel where
  intDraw lo hi _ p := lo + (p : ℤ) % (hi - lo)
  choiceDraw k _ _ p := p % k
  paretoDraw _ _ p := (p : ℚ)
  lognormalDraw _ _ _ p := (p : ℚ)
  betaDraw _ _ _ p := (p : ℚ)
  normalDraw _ _ _ p := (p : ℚ)
  poissonDraw _ _ p := (p : ℤ)
  randomDraw _ p := (p : ℚ)
  intDraw_lb := by
    intro lo hi s p h
    show lo ≤ lo + (p : ℤ) % (hi - lo)
    have h0 : (0 : ℤ) ≤ (p : ℤ) % (hi - lo) :=
      Int.emod_nonneg _ (by omega)
    omega
  intDraw_ub := by
    intro lo hi s p h
    show lo + (p : ℤ) % (hi - lo) < hi
    have h0 := Int.emod_lt_of_pos (p : ℤ) (show (0 : ℤ) < hi - lo by omega)
    omega
  choiceDraw_lt := by intro k pr s p h; exact Nat.mod_lt _ h

/-- A concrete generator model with constant draws, tuned so a sales row has
quantity 5, unit price 500, and a raw discount of 0.00004. -/
def c4Model : RngModel where
  intDraw _ hi _ _ := hi - 1
  choiceDraw _ _ _ _ := 0
  paretoDraw _ _ _ := 1
  lognormalDraw _ _ _ _ := 1000
  betaDraw _ _ _ _ := 4/100000
  normalDraw _ _ _ _ := 0
  poissonDraw _ _ _ := 0
  randomDraw _ _ := 0
  intDraw_lb := by intro lo hi s p h; show lo ≤ hi - 1; omega
  intDraw_ub := by intro lo hi s p h; show hi - 1 < hi; omega
  choiceDraw_lt := by intro k pr s p h; show 0 < k; omega

/-! Section: Helper lemmas -/

theorem range_map_getD {α : Type} (c i : ℕ) (f : ℕ → α) (d : α)
    (h : i < c) : ((List.range c).map f).getD i d = f i := by
  rw [List.getD_eq_getElem?_getD, List.getElem?_map, List.getElem?_range h]
  rfl

theorem dataRowsOfEvents_cons {ρ : Type} (e : FsEvent ρ)
    (evs : List (FsEvent ρ)) :
    dataRowsOfEvents (e :: evs) = e.rows ++ dataRowsOfEvents evs := by
  simp [dataRowsOfEvents]

theorem dataRowsOfEvents_nil {ρ : Type} :
    dataRowsOfEvents ([] : List (FsEvent ρ)) = [] := rfl

theorem writeMetas_cons {ρ : Type} (e : FsEvent ρ) (evs : List (FsEvent ρ)) :
    writeMetas (e :: evs) =
      (match e with
       | .mkdir _ => []
       | .writeChunk _ ow hdr _ => [(ow, hdr)]) ++ writeMetas evs := by
  cases e <;> simp [writeMetas]

theorem salesChunk_length (R : RngModel) (cfg : SalesConfig) (pre : SalesPrep)
    (start c : ℕ) (g : Rng) : (salesChunk R cfg pre start c g).1.length = c := by
  rcases hdp : pre.date_prob with _ | p <;>
    simp [salesChunk, hdp, intVec, choiceVec, betaVec]

theorem batchSizesFrom_sum (n b : ℕ) :
    ∀ start, start ≤ n → 0 < b →
      (batchSizesFrom n b start).sum = n + 1 - start := by
  intro start
  induction start using batchSizesFrom.induct n b with
  | case1 start h ih =>
    intro _ _
    rw [batchSizesFrom, dif_pos h]
    rw [List.sum_cons]
    by_cases hs : start + b ≤ n
    · rw [ih hs h.2]
      omega
    · rw [batchSizesFrom, dif_neg (by omega)]
      simp only [List.sum_nil]
      omega
  | case2 start h =>
    intro h1 h2
    exact absurd ⟨h1, h2⟩ h

theorem batchSizes_sum (n b : ℕ) (hn : 0 < n) (hb : 0 < b) :
    (batchSizes n b).sum = n := by
  have := batchSizesFrom_sum n b 1 hn hb
  simpa [batchSizes] using this

theorem salesLoop_rows_length (R : RngModel) (cfg : SalesConfig)
    (pre : SalesPrep) (n b : ℕ) :
    ∀ start g wrote,
      (dataRowsOfEvents (salesLoop R cfg pre n b start g wrote)).length =
        if start ≤ n ∧ 0 < b then n + 1 - start else 0 := by
  intro start g wrote
  induction start, g, wrote using salesLoop.induct R cfg pre n b with
  | case1 start g wrote h c res ih =>
    unfold c res at ih
    rw [salesLoop, dif_pos h, if_pos h]
    rw [dataRowsOfEvents_cons]
    simp only [FsEvent.rows, List.length_append, salesChunk_length]
    rw [ih]
    by_cases hs : start + b ≤ n
    · rw [if_pos ⟨hs, h.2⟩]
      omega
    · rw [if_neg (by omega)]
      omega
  | case2 start g wrote h =>
    rw [salesLoop, dif_neg h, if_neg h]
    rfl

theorem batchSizesFrom_length_pos (n b start : ℕ) (h1 : start ≤ n)
    (h2 : 0 < b) : 0 < (batchSizesFrom n b start).length := by
  rw [batchSizesFrom, dif_pos ⟨h1, h2⟩]
  simp

theorem salesLoop_rows_forall (R : RngModel) (cfg : SalesConfig)
    (pre : SalesPrep) (n b : ℕ) (Pr : SalesRow → Prop)
    (hchunk : ∀ start c g, ∀ r ∈ (salesChunk R cfg pre start c g).1, Pr r) :
    ∀ start g wrote,
      ∀ r ∈ dataRowsOfEvents (salesLoop R cfg pre n b start g wrote), Pr r := by
  intro start g wrote
  induction start, g, wrote using salesLoop.induct R cfg pre n b with
  | case1 start g wrote h c res ih =>
    unfold c res at ih
    rw [salesLoop, dif_pos h, dataRowsOfEvents_cons]
    intro r hr
    rcases List.mem_append.mp hr with h1 | h2
    · exact hchunk _ _ _ r h1
    · exact ih r h2
  | case2 start g wrote h =>
    rw [salesLoop, dif_neg h]
    intro r hr
    simp [dataRowsOfEvents] at hr

theorem salesLoop_writeMetas (R : RngModel) (cfg : SalesConfig)
    (pre : SalesPrep) (n b : ℕ) :
    ∀ start g wrote,
      writeMetas (salesLoop R cfg pre n b start g wrote) =
        if start ≤ n ∧ 0 < b then
          ((!wrote), if wrote then none else some salesColumns) ::
            List.replicate ((batchSizesFrom n b start).length - 1)
              (false, none)
        else [] := by
  intro start g wrote
  induction start, g, wrote using salesLoop.induct R cfg pre n b with
  | case1 start g wrote h c res ih =>
    unfold c res at ih
    rw [salesLoop, dif_pos h, if_pos h, writeMetas_cons]
    have hlen : (batchSizesFrom n b start).length =
        (batchSizesFrom n b (start + b)).length + 1 := by
      rw [batchSizesFrom, dif_pos h, List.length_cons]
    rw [ih, hlen]
    simp only [List.singleton_append, Nat.add_sub_cancel, List.cons.injEq,
      true_and]
    by_cases hs : start + b ≤ n
    · rw [if_pos ⟨hs, h.2⟩]
      have hpos := batchSizesFrom_length_pos n b (start + b) hs h.2
      rw [show (batchSizesFrom n b (start + b)).length =
        ((batchSizesFrom n b (start + b)).length - 1) + 1 by omega]
      rw [List.replicate_succ]
      simp
    · rw [if_neg (by omega)]
      rw [batchSizesFrom, dif_neg (by omega)]
      simp
  | case2 start g wrote h =>
    rw [salesLoop, dif_neg h, if_neg h]
    rfl

theorem salesLoop_replay (R : RngModel) (cfg : SalesConfig) (pre : SalesPrep)
    (n b : ℕ) :
    ∀ start g wrote file,
      List.foldl applyEvent file (salesLoop R cfg pre n b start g wrote) =
        if start ≤ n ∧ 0 < b then
          (if wrote then
            file ++ (dataRowsOfEvents
              (salesLoop R cfg pre n b start g wrote)).map CsvLine.row
          else
            CsvLine.header salesColumns :: (dataRowsOfEvents
              (salesLoop R cfg pre n b start g wrote)).map CsvLine.row)
        else file := by
  intro start g wrote
  induction start, g, wrote using salesLoop.induct R cfg pre n b with
  | case1 start g wrote h c res ih =>
    unfold c res at ih
    intro file
    rw [salesLoop, dif_pos h, if_pos h]
    rw [List.foldl_cons, dataRowsOfEvents_cons]
    rw [ih]
    by_cases hs : start + b ≤ n
    · rw [if_pos ⟨hs, h.2⟩]
      cases wrote <;>
        simp [applyEvent, FsEvent.rows, List.map_append, List.append_assoc]
    · have hend : salesLoop R cfg pre n b (start + b)
          (salesChunk R cfg pre start (min b (n - start + 1)) g).2 true = [] := by
        rw [salesLoop, dif_neg (by omega)]
      rw [if_neg (by omega), hend]
      cases wrote <;>
        simp [applyEvent, FsEvent.rows, dataRowsOfEvents]
  | case2 start g wrote h =>
    intro file
    rw [salesLoop, dif_neg h, if_neg h]
    rfl

theorem salesChunk_bounds (R : RngModel) (cfg : SalesConfig) (pre : SalesPrep)
    (start c : ℕ) (g : Rng) (hP : 0 < cfg.numProducts)
    (hC : 0 < cfg.numCustomers) (hS : 0 < cfg.numStores) :
    ∀ r ∈ (salesChunk R cfg pre start c g).1,
      1 ≤ r.product_id ∧ r.product_id ≤ cfg.numProducts ∧
      1 ≤ r.customer_id ∧ r.customer_id ≤ cfg.numCustomers ∧
      1 ≤ r.store_id ∧ r.store_id ≤ cfg.numStores := by
  have hPn : 0 < cfg.numProducts.toNat := by omega
  have hpl : ∀ q : ℕ,
      (1 : ℤ) ≤ (R.choiceDraw cfg.numProducts.toNat pre.product_prob
        g.seed q : ℤ) + 1 := by
    intro q; omega
  have hpu : ∀ q : ℕ,
      (R.choiceDraw cfg.numProducts.toNat pre.product_prob g.seed q : ℤ) + 1 ≤
        cfg.numProducts := by
    intro q
    have := R.choiceDraw_lt cfg.numProducts.toNat pre.product_prob g.seed q hPn
    omega
  have hcl : ∀ q : ℕ, 1 ≤ R.intDraw 1 (cfg.numCustomers + 1) g.seed q :=
    fun q => R.intDraw_lb 1 _ g.seed q (by omega)
  have hcu : ∀ q : ℕ,
      R.intDraw 1 (cfg.numCustomers + 1) g.seed q ≤ cfg.numCustomers := by
    intro q
    have := R.intDraw_ub 1 (cfg.numCustomers + 1) g.seed q (by omega)
    omega
  have hsl : ∀ q : ℕ, 1 ≤ R.intDraw 1 (cfg.numStores + 1) g.seed q :=
    fun q => R.intDraw_lb 1 _ g.seed q (by omega)
  have hsu : ∀ q : ℕ,
      R.intDraw 1 (cfg.numStores + 1) g.seed q ≤ cfg.numStores := by
    intro q
    have := R.intDraw_ub 1 (cfg.numStores + 1) g.seed q (by omega)
    omega
  intro r hr
  rcases hdp : pre.date_prob with _ | p <;>
    simp only [salesChunk, hdp, intVec, choiceVec, betaVec, List.map_map] at hr <;>
    obtain ⟨i, hi, rfl⟩ := List.mem_map.mp hr <;>
    rw [List.mem_range] at hi <;>
    simp only [Function.comp, range_map_getD _ _ _ _ hi] <;>
    exact ⟨hpl _, hpu _, hcl _, hcu _, hsl _, hsu _⟩

theorem clipQ_lb (x lo hi : ℚ) (h : lo ≤ hi) : lo ≤ clipQ x lo hi :=
  le_min (le_max_right x lo) h

theorem clipQ_ub (x lo hi : ℚ) : clipQ x lo hi ≤ hi := min_le_right _ _

theorem salesChunk_discount (R : RngModel) (cfg : SalesConfig)
    (pre : SalesPrep) (start c : ℕ) (g : Rng) :
    ∀ r ∈ (salesChunk R cfg pre start c g).1,
      ∃ d : ℚ, r.discount_rate = round4 d ∧
        r.revenue = round2 ((r.quantity : ℚ) * r.unit_price * (1 - d)) ∧
        0 ≤ d ∧ d ≤ 60/100 := by
  intro r hr
  rcases hdp : pre.date_prob with _ | p <;>
    simp only [salesChunk, hdp, intVec, choiceVec, betaVec, List.map_map] at hr <;>
    obtain ⟨i, hi, rfl⟩ := List.mem_map.mp hr <;>
    rw [List.mem_range] at hi <;>
    simp only [Function.comp, range_map_getD _ _ _ _ hi] <;>
    exact ⟨_, rfl, rfl, clipQ_lb _ _ _ (by norm_num), clipQ_ub _ _ _⟩

theorem ratingsChunk_bounds (R : RngModel) (cfg : RatingsConfig)
    (date_prob : Option (List ℚ)) (c : ℕ) (g : Rng) (hU : 0 < cfg.numUsers)
    (hP : 0 < cfg.numProducts) :
    ∀ r ∈ (ratingsChunk R cfg date_prob c g).1,
      1 ≤ r.user_id ∧ r.user_id ≤ cfg.numUsers ∧
      1 ≤ r.product_id ∧ r.product_id ≤ cfg.numProducts := by
  have hul : ∀ q : ℕ, 1 ≤ R.intDraw 1 (cfg.numUsers + 1) g.seed q :=
    fun q => R.intDraw_lb 1 _ g.seed q (by omega)
  have huu : ∀ q : ℕ, R.intDraw 1 (cfg.numUsers + 1) g.seed q ≤ cfg.numUsers := by
    intro q
    have := R.intDraw_ub 1 (cfg.numUsers + 1) g.seed q (by omega)
    omega
  have hpl : ∀ q : ℕ, 1 ≤ R.intDraw 1 (cfg.numProducts + 1) g.seed q :=
    fun q => R.intDraw_lb 1 _ g.seed q (by omega)
  have hpu : ∀ q : ℕ,
      R.intDraw 1 (cfg.numProducts + 1) g.seed q ≤ cfg.numProducts := by
    intro q
    have := R.intDraw_ub 1 (cfg.numProducts + 1) g.seed q (by omega)
    omega
  intro r hr
  rcases hdp : date_prob with _ | p <;>
    simp only [ratingsChunk, hdp, intVec, choiceVec, List.map_map] at hr <;>
    obtain ⟨i, hi, rfl⟩ := List.mem_map.mp hr <;>
    rw [List.mem_range] at hi <;>
    simp only [Function.comp, range_map_getD _ _ _ _ hi] <;>
    exact ⟨hul _, huu _, hpl _, hpu _⟩

theorem transactionsChunk_bounds (R : RngModel) (cfg : TransactionsConfig)
    (year_prob_arr : List ℚ) (chunkStart c : ℕ) (g : Rng)
    (hC : 0 < cfg.numCustomers) (hP : 0 < cfg.numProducts) :
    ∀ r ∈ (transactionsChunk R cfg year_prob_arr chunkStart c g).1,
      1 ≤ r.customer_id ∧ r.customer_id ≤ cfg.numCustomers ∧
      1 ≤ r.product_id ∧ r.product_id ≤ cfg.numProducts := by
  have hcl : ∀ q : ℕ, 1 ≤ R.intDraw 1 (cfg.numCustomers + 1) g.seed q :=
    fun q => R.intDraw_lb 1 _ g.seed q (by omega)
  have hcu : ∀ q : ℕ,
      R.intDraw 1 (cfg.numCustomers + 1) g.seed q ≤ cfg.numCustomers := by
    intro q
    have := R.intDraw_ub 1 (cfg.numCustomers + 1) g.seed q (by omega)
    omega
  have hpl : ∀ q : ℕ, 1 ≤ R.intDraw 1 (cfg.numProducts + 1) g.seed q :=
    fun q => R.intDraw_lb 1 _ g.seed q (by omega)
  have hpu : ∀ q : ℕ,
      R.intDraw 1 (cfg.numProducts + 1) g.seed q ≤ cfg.numProducts := by
    intro q
    have := R.intDraw_ub 1 (cfg.numProducts + 1) g.seed q (by omega)
    omega
  intro r hr
  simp only [transactionsChunk, intVec, choiceVec, lognormalVec,
    List.map_map] at hr
  obtain ⟨i, hi, rfl⟩ := List.mem_map.mp hr
  rw [List.mem_range] at hi
  simp only [Function.comp, range_map_getD _ _ _ _ hi]
  exact ⟨hcl _, hcu _, hpl _, hpu _⟩

theorem ordersChunk_bounds (R : RngModel) (cfg : OrdersConfig)
    (pre : OrdersPrep) (chunkStart c : ℕ) (g : Rng)
    (hP : 0 < cfg.numProducts) (hC : 0 < cfg.numCustomers)
    (hS : 0 < cfg.numStores) :
    ∀ r ∈ (ordersChunk R cfg pre chunkStart c g).1,
      1 ≤ r.product_id ∧ r.product_id ≤ cfg.numProducts ∧
      1 ≤ r.customer_id ∧ r.customer_id ≤ cfg.numCustomers ∧
      1 ≤ r.store_id ∧ r.store_id ≤ cfg.numStores := by
  have hPn : 0 < cfg.numProducts.toNat := by omega
  have hpl : ∀ q : ℕ,
      (1 : ℤ) ≤ (R.choiceDraw cfg.numProducts.toNat pre.product_prob
        g.seed q : ℤ) + 1 := by
    intro q; omega
  have hpu : ∀ q : ℕ,
      (R.choiceDraw cfg.numProducts.toNat pre.product_prob g.seed q : ℤ) + 1 ≤
        cfg.numProducts := by
    intro q
    have := R.choiceDraw_lt cfg.numProducts.toNat pre.product_prob g.seed q hPn
    omega
  have hcl : ∀ q : ℕ, 1 ≤ R.intDraw 1 (cfg.numCustomers + 1) g.seed q :=
    fun q => R.intDraw_lb 1 _ g.seed q (by omega)
  have hcu : ∀ q : ℕ,
      R.intDraw 1 (cfg.numCustomers + 1) g.seed q ≤ cfg.numCustomers := by
    intro q
    have := R.intDraw_ub 1 (cfg.numCustomers + 1) g.seed q (by omega)
    omega
  have hsl : ∀ q : ℕ, 1 ≤ R.intDraw 1 (cfg.numStores + 1) g.seed q :=
    fun q => R.intDraw_lb 1 _ g.seed q (by omega)
  have hsu : ∀ q : ℕ,
      R.intDraw 1 (cfg.numStores + 1) g.seed q ≤ cfg.numStores := by
    intro q
    have := R.intDraw_ub 1 (cfg.numStores + 1) g.seed q (by omega)
    omega
  intro r hr
  rcases hdp : pre.date_prob with _ | p <;>
    simp only [ordersChunk, hdp, intVec, choiceVec, List.map_map] at hr <;>
    obtain ⟨i, hi, rfl⟩ := List.mem_map.mp hr <;>
    rw [List.mem_range] at hi <;>
    simp only [Function.comp, range_map_getD _ _ _ _ hi] <;>
    exact ⟨hpl _, hpu _, hcl _, hcu _, hsl _, hsu _⟩

theorem ordersChunk_price (R : RngModel) (cfg : OrdersConfig)
    (pre : OrdersPrep) (chunkStart c : ℕ) (g : Rng) :
    ∀ r ∈ (ordersChunk R cfg pre chunkStart c g).1,
      r.price =
        round2 (pre.product_unit_price.getD (r.product_id - 1).toNat 0 *
          (r.quantity : ℚ)) := by
  intro r hr
  rcases hdp : pre.date_prob with _ | p <;>
    simp only [ordersChunk, hdp, intVec, choiceVec, List.map_map] at hr <;>
    obtain ⟨i, hi, rfl⟩ := List.mem_map.mp hr <;>
    rw [List.mem_range] at hi <;>
    simp only [Function.comp, range_map_getD _ _ _ _ hi] <;>
    simp

theorem customersChunk_citystate (R : RngModel) (cfg : CustomersConfig)
    (chunkStart c : ℕ) (g : Rng) :
    ∀ r ∈ (customersChunk R cfg chunkStart c g).1,
      r.state = state_by_city r.city ∧
      (r.city, r.state) ∈ [("New York", "NY"), ("Los Angeles", "CA"),
        ("Chicago", "IL"), ("Houston", "TX")] := by
  intro r hr
  simp only [customersChunk, intVec, choiceVec, normalVec, lognormalVec,
    List.map_map] at hr
  obtain ⟨i, hi, rfl⟩ := List.mem_map.mp hr
  rw [List.mem_range] at hi
  simp only [Function.comp, range_map_getD _ _ _ _ hi]
  refine ⟨by trivial, ?_⟩
  have h4 := R.choiceDraw_lt 4 customerCityProb g.seed
    (g.pos + c + c + c + i) (by norm_num)
  set k := R.choiceDraw 4 customerCityProb g.seed (g.pos + c + c + c + i)
    with hk
  interval_cases k <;> simp [customerCities, state_by_city]

theorem customersLoop_rows_forall (R : RngModel) (cfg : CustomersConfig)
    (n b : ℕ) (Pr : CustomerRow → Prop)
    (hchunk : ∀ cs c g, ∀ r ∈ (customersChunk R cfg cs c g).1, Pr r) :
    ∀ cs g wrote,
      ∀ r ∈ dataRowsOfEvents (customersLoop R cfg n b cs g wrote), Pr r := by
  intro cs g wrote
  induction cs, g, wrote using customersLoop.induct R cfg n b with
  | case1 cs g wrote h c res ih =>
    unfold c res at ih
    rw [customersLoop, dif_pos h, dataRowsOfEvents_cons]
    intro r hr
    rcases List.mem_append.mp hr with h1 | h2
    · exact hchunk _ _ _ r h1
    · exact ih r h2
  | case2 cs g wrote h =>
    rw [customersLoop, dif_neg h]
    intro r hr
    simp [dataRowsOfEvents] at hr

theorem ratingsLoop_rows_forall (R : RngModel) (cfg : RatingsConfig)
    (date_prob : Option (List ℚ)) (n b : ℕ) (Pr : RatingRow → Prop)
    (hchunk : ∀ c g, ∀ r ∈ (ratingsChunk R cfg date_prob c g).1, Pr r) :
    ∀ rs g wrote,
      ∀ r ∈ dataRowsOfEvents (ratingsLoop R cfg date_prob n b rs g wrote),
        Pr r := by
  intro rs g wrote
  induction rs, g, wrote using ratingsLoop.induct R cfg date_prob n b with
  | case1 rs g wrote h c res ih =>
    unfold c res at ih
    rw [ratingsLoop, dif_pos h, dataRowsOfEvents_cons]
    intro r hr
    rcases List.mem_append.mp hr with h1 | h2
    · exact hchunk _ _ r h1
    · exact ih r h2
  | case2 rs g wrote h =>
    rw [ratingsLoop, dif_neg h]
    intro r hr
    simp [dataRowsOfEvents] at hr

theorem transactionsLoop_rows_forall (R : RngModel) (cfg : TransactionsConfig)
    (ypa : List ℚ) (n b : ℕ) (Pr : TransactionRow → Prop)
    (hchunk : ∀ cs c g, ∀ r ∈ (transactionsChunk R cfg ypa cs c g).1, Pr r) :
    ∀ cs g wrote,
      ∀ r ∈ dataRowsOfEvents (transactionsLoop R cfg ypa n b cs g wrote),
        Pr r := by
  intro cs g wrote
  induction cs, g, wrote using transactionsLoop.induct R cfg ypa n b with
  | case1 cs g wrote h c res ih =>
    unfold c res at ih
    rw [transactionsLoop, dif_pos h, dataRowsOfEvents_cons]
    intro r hr
    rcases List.mem_append.mp hr with h1 | h2
    · exact hchunk _ _ _ r h1
    · exact ih r h2
  | case2 cs g wrote h =>
    rw [transactionsLoop, dif_neg h]
    intro r hr
    simp [dataRowsOfEvents] at hr

theorem ordersLoop_rows_forall (R : RngModel) (cfg : OrdersConfig)
    (pre : OrdersPrep) (n b : ℕ) (Pr : OrderRow → Prop)
    (hchunk : ∀ cs c g, ∀ r ∈ (ordersChunk R cfg pre cs c g).1, Pr r) :
    ∀ cs g wrote,
      ∀ r ∈ dataRowsOfEvents (ordersLoop R cfg pre n b cs g wrote), Pr r := by
  intro cs g wrote
  induction cs, g, wrote using ordersLoop.induct R cfg pre n b with
  | case1 cs g wrote h c res ih =>
    unfold c res at ih
    rw [ordersLoop, dif_pos h, dataRowsOfEvents_cons]
    intro r hr
    rcases List.mem_append.mp hr with h1 | h2
    · exact hchunk _ _ _ r h1
    · exact ih r h2
  | case2 cs g wrote h =>
    rw [ordersLoop, dif_neg h]
    intro r hr
    simp [dataRowsOfEvents] at hr

theorem customersChunk_length (R : RngModel) (cfg : CustomersConfig)
    (cs c : ℕ) (g : Rng) : (customersChunk R cfg cs c g).1.length = c := by
  simp [customersChunk, intVec, choiceVec, normalVec, lognormalVec]

theorem ratingsChunk_length (R : RngModel) (cfg : RatingsConfig)
    (dp : Option (List ℚ)) (c : ℕ) (g : Rng) :
    (ratingsChunk R cfg dp c g).1.length = c := by
  rcases hdp : dp with _ | p <;>
    simp [ratingsChunk, hdp, intVec, choiceVec]

theorem transactionsChunk_length (R : RngModel) (cfg : TransactionsConfig)
    (ypa : List ℚ) (cs c : ℕ) (g : Rng) :
    (transactionsChunk R cfg ypa cs c g).1.length = c := by
  simp [transactionsChunk, intVec, choiceVec, lognormalVec]

theorem ordersChunk_length (R : RngModel) (cfg : OrdersConfig)
    (pre : OrdersPrep) (cs c : ℕ) (g : Rng) :
    (ordersChunk R cfg pre cs c g).1.length = c := by
  rcases hdp : pre.date_prob with _ | p <;>
    simp [ordersChunk, hdp, intVec, choiceVec]

theorem customersLoop_rows_length (R : RngModel) (cfg : CustomersConfig)
    (n b : ℕ) :
    ∀ cs g wrote,
      (dataRowsOfEvents (customersLoop R cfg n b cs g wrote)).length =
        if cs < n ∧ 0 < b then n - cs else 0 := by
  intro cs g wrote
  induction cs, g, wrote using customersLoop.induct R cfg n b with
  | case1 cs g wrote h c res ih =>
    unfold c res at ih
    rw [customersLoop, dif_pos h, if_pos h, dataRowsOfEvents_cons]
    simp only [FsEvent.rows, List.length_append, customersChunk_length]
    rw [ih]
    by_cases hs : cs + b < n
    · rw [if_pos ⟨hs, h.2⟩]; omega
    · rw [if_neg (by omega)]; omega
  | case2 cs g wrote h =>
    rw [customersLoop, dif_neg h, if_neg h]
    rfl

theorem ratingsLoop_rows_length (R : RngModel) (cfg : RatingsConfig)
    (dp : Option (List ℚ)) (n b : ℕ) :
    ∀ rs g wrote,
      (dataRowsOfEvents (ratingsLoop R cfg dp n b rs g wrote)).length =
        if rs < n ∧ 0 < b then n - rs else 0 := by
  intro rs g wrote
  induction rs, g, wrote using ratingsLoop.induct R cfg dp n b with
  | case1 rs g wrote h c res ih =>
    unfold c res at ih
    rw [ratingsLoop, dif_pos h, if_pos h, dataRowsOfEvents_cons]
    simp only [FsEvent.rows, List.length_append, ratingsChunk_length]
    rw [ih]
    by_cases hs : rs + b < n
    · rw [if_pos ⟨hs, h.2⟩]; omega
    · rw [if_neg (by omega)]; omega
  | case2 rs g wrote h =>
    rw [ratingsLoop, dif_neg h, if_neg h]
    rfl

theorem transactionsLoop_rows_length (R : RngModel) (cfg : TransactionsConfig)
    (ypa : List ℚ) (n b : ℕ) :
    ∀ cs g wrote,
      (dataRowsOfEvents (transactionsLoop R cfg ypa n b cs g wrote)).length =
        if cs < n ∧ 0 < b then n - cs else 0 := by
  intro cs g wrote
  induction cs, g, wrote using transactionsLoop.induct R cfg ypa n b with
  | case1 cs g wrote h c res ih =>
    unfold c res at ih
    rw [transactionsLoop, dif_pos h, if_pos h, dataRowsOfEvents_cons]
    simp only [FsEvent.rows, List.length_append, transactionsChunk_length]
    rw [ih]
    by_cases hs : cs + b < n
    · rw [if_pos ⟨hs, h.2⟩]; omega
    · rw [if_neg (by omega)]; omega
  | case2 cs g wrote h =>
    rw [transactionsLoop, dif_neg h, if_neg h]
    rfl

theorem ordersLoop_rows_length (R : RngModel) (cfg : OrdersConfig)
    (pre : OrdersPrep) (n b : ℕ) :
    ∀ cs g wrote,
      (dataRowsOfEvents (ordersLoop R cfg pre n b cs g wrote)).length =
        if cs < n ∧ 0 < b then n - cs else 0 := by
  intro cs g wrote
  induction cs, g, wrote using ordersLoop.induct R cfg pre n b with
  | case1 cs g wrote h c res ih =>
    unfold c res at ih
    rw [ordersLoop, dif_pos h, if_pos h, dataRowsOfEvents_cons]
    simp only [FsEvent.rows, List.length_append, ordersChunk_length]
    rw [ih]
    by_cases hs : cs + b < n
    · rw [if_pos ⟨hs, h.2⟩]; omega
    · rw [if_neg (by omega)]; omega
  | case2 cs g wrote h =>
    rw [ordersLoop, dif_neg h, if_neg h]
    rfl

theorem salesDataRows_length (R : RngModel) (seed : Nat) (cfg : SalesConfig)
    (h1 : 0 < cfg.numRows) (h2 : 0 < cfg.chunkSize) (h3 : 0 < cfg.numProducts)
    (h4 : 0 < cfg.numCustomers) (h5 : 0 < cfg.numStores) (h6 : 0 < cfg.days) :
    (salesDataRows R seed cfg).length = cfg.numRows.toNat := by
  simp only [salesDataRows, create_sales_dataset]
  rw [if_neg (by omega), if_neg (by omega), if_neg (by omega),
    if_neg (by omega)]
  rw [show ([FsEvent.mkdir cfg.folder] : List (FsEvent SalesRow)) ++
    salesLoop R cfg (salesPrep R seed cfg) cfg.numRows.toNat
      cfg.chunkSize.toNat 1 (salesPrep R seed cfg).rng false =
    FsEvent.mkdir cfg.folder :: salesLoop R cfg (salesPrep R seed cfg)
      cfg.numRows.toNat cfg.chunkSize.toNat 1
      (salesPrep R seed cfg).rng false from rfl]
  rw [dataRowsOfEvents_cons]
  simp only [FsEvent.rows, List.nil_append]
  rw [salesLoop_rows_length]
  rw [if_pos ⟨by omega, by omega⟩]
  omega

theorem customersDataRows_length (R : RngModel) (seed : Nat)
    (cfg : CustomersConfig) (h1 : 0 < cfg.numRows) (h2 : 0 < cfg.chunkSize)
    (h3 : 0 < cfg.startCustomerId) (h4 : 0 < cfg.days) :
    (customersDataRows R seed cfg).length = cfg.numRows.toNat := by
  simp only [customersDataRows, create_customers_dataset]
  rw [if_neg (by omega), if_neg (by omega), if_neg (by omega),
    if_neg (by omega)]
  rw [show ([FsEvent.mkdir cfg.folder] : List (FsEvent CustomerRow)) ++
    customersLoop R cfg cfg.numRows.toNat cfg.chunkSize.toNat 0
      (R.defaultRng seed) false =
    FsEvent.mkdir cfg.folder :: customersLoop R cfg cfg.numRows.toNat
      cfg.chunkSize.toNat 0 (R.defaultRng seed) false from rfl]
  rw [dataRowsOfEvents_cons]
  simp only [FsEvent.rows, List.nil_append]
  rw [customersLoop_rows_length]
  rw [if_pos ⟨by omega, by omega⟩]
  omega

theorem ratingsDataRows_length (R : RngModel) (seed : Nat)
    (cfg : RatingsConfig) (h1 : 0 < cfg.numRows) (h2 : 0 < cfg.chunkSize)
    (h3 : 0 < cfg.numUsers) (h4 : 0 < cfg.numProducts) (h5 : 0 < cfg.days) :
    (ratingsDataRows R seed cfg).length = cfg.numRows.toNat := by
  simp only [ratingsDataRows, create_ratings_dataset]
  rw [if_neg (by omega), if_neg (by omega), if_neg (by omega),
    if_neg (by omega)]
  rw [show ∀ dp, ([FsEvent.mkdir cfg.folder] : List (FsEvent RatingRow)) ++
    ratingsLoop R cfg dp cfg.numRows.toNat cfg.chunkSize.toNat 0
      (R.defaultRng seed) false =
    FsEvent.mkdir cfg.folder :: ratingsLoop R cfg dp cfg.numRows.toNat
      cfg.chunkSize.toNat 0 (R.defaultRng seed) false from fun _ => rfl]
  rw [dataRowsOfEvents_cons]
  simp only [FsEvent.rows, List.nil_append]
  rw [ratingsLoop_rows_length]
  rw [if_pos ⟨by omega, by omega⟩]
  omega

theorem transactionsDataRows_length (R : RngModel) (seed : Nat)
    (cfg : TransactionsConfig) (h1 : 0 < cfg.numRows) (h2 : 0 < cfg.chunkSize)
    (h3 : 0 < cfg.numCustomers) (h4 : 0 < cfg.numProducts)
    (h5 : cfg.yearProb.length = 3) :
    (transactionsDataRows R seed cfg).length = cfg.numRows.toNat := by
  simp only [transactionsDataRows, create_transactions_dataset]
  rw [if_neg (by omega), if_neg (by omega), if_neg (by omega),
    if_neg (by omega : ¬cfg.yearProb.length ≠ 3)]
  rw [show ([FsEvent.mkdir cfg.folder] : List (FsEvent TransactionRow)) ++
    transactionsLoop R cfg (normalize cfg.yearProb) cfg.numRows.toNat
      cfg.chunkSize.toNat 0 (R.defaultRng seed) false =
    FsEvent.mkdir cfg.folder :: transactionsLoop R cfg
      (normalize cfg.yearProb) cfg.numRows.toNat cfg.chunkSize.toNat 0
      (R.defaultRng seed) false from rfl]
  rw [dataRowsOfEvents_cons]
  simp only [FsEvent.rows, List.nil_append]
  rw [transactionsLoop_rows_length]
  rw [if_pos ⟨by omega, by omega⟩]
  omega

theorem ordersDataRows_length (R : RngModel) (seed : Nat) (cfg : OrdersConfig)
    (h1 : 0 < cfg.numRows) (h2 : 0 < cfg.chunkSize) (h3 : 0 < cfg.numProducts)
    (h4 : 0 < cfg.numCustomers) (h5 : 0 < cfg.numStores) (h6 : 0 < cfg.days) :
    (ordersDataRows R seed cfg).length = cfg.numRows.toNat := by
  simp only [ordersDataRows, create_orders_dataset]
  rw [if_neg (by omega), if_neg (by omega), if_neg (by omega),
    if_neg (by omega)]
  rw [show ([FsEvent.mkdir cfg.folder] : List (FsEvent OrderRow)) ++
    ordersLoop R cfg (ordersPrep R seed cfg) cfg.numRows.toNat
      cfg.chunkSize.toNat 0 (ordersPrep R seed cfg).rng false =
    FsEvent.mkdir cfg.folder :: ordersLoop R cfg (ordersPrep R seed cfg)
      cfg.numRows.toNat cfg.chunkSize.toNat 0
      (ordersPrep R seed cfg).rng false from rfl]
  rw [dataRowsOfEvents_cons]
  simp only [FsEvent.rows, List.nil_append]
  rw [ordersLoop_rows_length]
  rw [if_pos ⟨by omega, by omega⟩]
  omega

theorem salesDataRows_forall (R : RngModel) (seed : Nat) (cfg : SalesConfig)
    (Pr : SalesRow → Prop)
    (hchunk : ∀ start c g,
      ∀ r ∈ (salesChunk R cfg (salesPrep R seed cfg) start c g).1, Pr r) :
    ∀ r ∈ salesDataRows R seed cfg, Pr r := by
  intro r hr
  simp only [salesDataRows, create_sales_dataset] at hr
  split_ifs at hr
  · simp [dataRowsOfEvents, FsEvent.rows] at hr
  · simp [dataRowsOfEvents, FsEvent.rows] at hr
  · simp [dataRowsOfEvents, FsEvent.rows] at hr
  · simp [dataRowsOfEvents, FsEvent.rows] at hr
  · simp only [List.singleton_append, dataRowsOfEvents_cons, FsEvent.rows,
      List.nil_append] at hr
    exact salesLoop_rows_forall R cfg _ _ _ Pr hchunk _ _ _ r hr

theorem customersDataRows_forall (R : RngModel) (seed : Nat)
    (cfg : CustomersConfig) (Pr : CustomerRow → Prop)
    (hchunk : ∀ cs c g, ∀ r ∈ (customersChunk R cfg cs c g).1, Pr r) :
    ∀ r ∈ customersDataRows R seed cfg, Pr r := by
  intro r hr
  simp only [customersDataRows, create_customers_dataset] at hr
  split_ifs at hr
  · simp [dataRowsOfEvents, FsEvent.rows] at hr
  · simp [dataRowsOfEvents, FsEvent.rows] at hr
  · simp [dataRowsOfEvents, FsEvent.rows] at hr
  · simp [dataRowsOfEvents, FsEvent.rows] at hr
  · simp only [List.singleton_append, dataRowsOfEvents_cons, FsEvent.rows,
      List.nil_append] at hr
    exact customersLoop_rows_forall R cfg _ _ Pr hchunk _ _ _ r hr

theorem ratingsDataRows_forall (R : RngModel) (seed : Nat)
    (cfg : RatingsConfig) (Pr : RatingRow → Prop)
    (hchunk : ∀ dp c g, ∀ r ∈ (ratingsChunk R cfg dp c g).1, Pr r) :
    ∀ r ∈ ratingsDataRows R seed cfg, Pr r := by
  intro r hr
  simp only [ratingsDataRows, create_ratings_dataset] at hr
  split_ifs at hr
  · simp [dataRowsOfEvents, FsEvent.rows] at hr
  · simp [dataRowsOfEvents, FsEvent.rows] at hr
  · simp [dataRowsOfEvents, FsEvent.rows] at hr
  · simp [dataRowsOfEvents, FsEvent.rows] at hr
  · simp only [List.singleton_append, dataRowsOfEvents_cons, FsEvent.rows,
      List.nil_append] at hr
    exact ratingsLoop_rows_forall R cfg _ _ _ Pr (hchunk _) _ _ _ r hr
  · simp only [List.singleton_append, dataRowsOfEvents_cons, FsEvent.rows,
      List.nil_append] at hr
    exact ratingsLoop_rows_forall R cfg _ _ _ Pr (hchunk _) _ _ _ r hr

theorem transactionsDataRows_forall (R : RngModel) (seed : Nat)
    (cfg : TransactionsConfig) (Pr : TransactionRow → Prop)
    (hchunk : ∀ ypa cs c g,
      ∀ r ∈ (transactionsChunk R cfg ypa cs c g).1, Pr r) :
    ∀ r ∈ transactionsDataRows R seed cfg, Pr r := by
  intro r hr
  simp only [transactionsDataRows, create_transactions_dataset] at hr
  split_ifs at hr
  · simp [dataRowsOfEvents, FsEvent.rows] at hr
  · simp [dataRowsOfEvents, FsEvent.rows] at hr
  · simp [dataRowsOfEvents, FsEvent.rows] at hr
  · simp [dataRowsOfEvents, FsEvent.rows] at hr
  · simp only [List.singleton_append, dataRowsOfEvents_cons, FsEvent.rows,
      List.nil_append] at hr
    exact transactionsLoop_rows_forall R cfg _ _ _ Pr (hchunk _) _ _ _ r hr

theorem ordersDataRows_forall (R : RngModel) (seed : Nat) (cfg : OrdersConfig)
    (Pr : OrderRow → Prop)
    (hchunk : ∀ cs c g,
      ∀ r ∈ (ordersChunk R cfg (ordersPrep R seed cfg) cs c g).1, Pr r) :
    ∀ r ∈ ordersDataRows R seed cfg, Pr r := by
  intro r hr
  simp only [ordersDataRows, create_orders_dataset] at hr
  split_ifs at hr
  · simp [dataRowsOfEvents, FsEvent.rows] at hr
  · simp [dataRowsOfEvents, FsEvent.rows] at hr
  · simp [dataRowsOfEvents, FsEvent.rows] at hr
  · simp [dataRowsOfEvents, FsEvent.rows] at hr
  · simp only [List.singleton_append, dataRowsOfEvents_cons, FsEvent.rows,
      List.nil_append] at hr
    exact ordersLoop_rows_forall R cfg _ _ _ Pr hchunk _ _ _ r hr

/-- Embedding of `l.getD 0 d` is a member of any nonempty list `l`. -/
theorem getD_zero_mem {α : Type} (l : List α) (d : α) (h : 0 < l.length) :
    l.getD 0 d ∈ l := by
  cases l with
  | nil => simp at h
  | cons a t => simp [List.getD]

/-! Section: Default configurations (the script's default arguments)

Epoch days: 2024-01-01 is day 19723, 2019-01-01 is day 17897. -/

def defSalesCfg : SalesConfig :=
  { folder := "data", csvFile := "large_sales_data.csv", numRows := 1000000,
    chunkSize := 200000, numProducts := 10000, numCustomers := 500000,
    numStores := 500, startDay := 19723, days := 366, seasonality := true }

def defCustomersCfg : CustomersConfig :=
  { folder := "data", csvFile := "customers.csv", numRows := 500000,
    chunkSize := 200000, startCustomerId := 1, startDay := 17897,
    days := 2190 }

def defRatingsCfg : RatingsConfig :=
  { folder := "data", csvFile := "ratings.csv", numRows := 2000000,
    chunkSize := 250000, numUsers := 500000, numProducts := 10000,
    startDay := 19723, days := 366, seasonality := true }

def defProductsCfg : ProductsConfig :=
  { folder := "data", csvFile := "products.csv", numRows := 5000000,
    chunkSize := 500000 }

def defTransactionsCfg : TransactionsConfig :=
  { folder := "data", csvFile := "transactions.csv", numRows := 3000000,
    chunkSize := 250000, numCustomers := 500000, numProducts := 10000,
    yearProb := [3/10, 3/10, 4/10] }

def defOrdersCfg : OrdersConfig :=
  { folder := "data", csvFile := "orders.csv", numRows := 2500000,
    chunkSize := 250000, numProducts := 10000, numCustomers := 500000,
    numStores := 500, startDay := 19723, days := 366, seasonality := true }

/-- A small sales configuration used to compare two batch sizes. -/
def c3BaseCfg : SalesConfig :=
  { folder := "data", csvFile := "s.csv", numRows := 2, chunkSize := 2,
    numProducts := 1, numCustomers := 9, numStores := 1, startDay := 0,
    days := 30, seasonality := false }

/-- A minimal sales configuration for exercising the revenue computation. -/
def c4Cfg : SalesConfig :=
  { folder := "data", csvFile := "s.csv", numRows := 1, chunkSize := 1,
    numProducts := 1, numCustomers := 1, numStores := 1, startDay := 0,
    days := 1, seasonality := false }

/-! Section: Claims -/

/-- Claim C1: every table generator, viewed as a map from seed and
configuration to its emitted trace (and hence its output file), is
deterministic: two runs with the same seed and the same configuration
produce identical output.  This holds for every random-generator model
because each run creates its single generator from the seed alone and
threads it through every sampling step. -/
theorem claim_C1_determinism (R : RngModel) (s₁ s₂ : Nat) (hs : s₁ = s₂) :
    (∀ c₁ c₂ : SalesConfig, c₁ = c₂ →
      create_sales_dataset R s₁ c₁ = create_sales_dataset R s₂ c₂) ∧
    (∀ c₁ c₂ : CustomersConfig, c₁ = c₂ →
      create_customers_dataset R s₁ c₁ = create_customers_dataset R s₂ c₂) ∧
    (∀ c₁ c₂ : RatingsConfig, c₁ = c₂ →
      create_ratings_dataset R s₁ c₁ = create_ratings_dataset R s₂ c₂) ∧
    (∀ c₁ c₂ : ProductsConfig, c₁ = c₂ →
      create_products_dataset R s₁ c₁ = create_products_dataset R s₂ c₂) ∧
    (∀ c₁ c₂ : TransactionsConfig, c₁ = c₂ →
      create_transactions_dataset R s₁ c₁ = create_transactions_dataset R s₂ c₂) ∧
    (∀ c₁ c₂ : OrdersConfig, c₁ = c₂ →
      create_orders_dataset R s₁ c₁ = create_orders_dataset R s₂ c₂) := by
  subst hs
  exact ⟨fun c₁ c₂ hc => by rw [hc], fun c₁ c₂ hc => by rw [hc],
    fun c₁ c₂ hc => by rw [hc], fun c₁ c₂ hc => by rw [hc],
    fun c₁ c₂ hc => by rw [hc], fun c₁ c₂ hc => by rw [hc]⟩

theorem claim_C1_determinism_witness :
    create_sales_dataset streamModel 42 defSalesCfg =
      create_sales_dataset streamModel 42 defSalesCfg :=
  (claim_C1_determinism streamModel 42 42 rfl).1 defSalesCfg defSalesCfg rfl

/-- Claim C2: for row count `n > 0` and batch size `b > 0` (and otherwise
valid configuration), a sales-generator run writes exactly `n` data rows:
the chunk sizes `min(b, remaining)` of the loop over
`range(1, n + 1, b)` sum to `n`, and the emitted data rows number `n`. -/
theorem claim_C2_row_count (R : RngModel) (seed : Nat) (cfg : SalesConfig)
    (h1 : 0 < cfg.numRows) (h2 : 0 < cfg.chunkSize) (h3 : 0 < cfg.numProducts)
    (h4 : 0 < cfg.numCustomers) (h5 : 0 < cfg.numStores) (h6 : 0 < cfg.days) :
    (batchSizes cfg.numRows.toNat cfg.chunkSize.toNat).sum =
      cfg.numRows.toNat ∧
    (salesDataRows R seed cfg).length = cfg.numRows.toNat :=
  ⟨batchSizes_sum _ _ (by omega) (by omega),
   salesDataRows_length R seed cfg h1 h2 h3 h4 h5 h6⟩

theorem claim_C2_row_count_witness :
    (batchSizes (1000003 : ℤ).toNat (200000 : ℤ).toNat).sum =
      (1000003 : ℤ).toNat ∧
    (salesDataRows streamModel 42
      { defSalesCfg with numRows := 1000003 }).length =
      (1000003 : ℤ).toNat :=
  claim_C2_row_count streamModel 42 { defSalesCfg with numRows := 1000003 }
    (by decide) (by decide) (by decide) (by decide) (by decide) (by decide)

/-- Claim C3 (corrected): for a fixed seed, changing the batch size preserves
the number of emitted rows, but not, in general, their contents: each batch
issues one draw call per column, so the generator stream is consumed in a
batch-size-dependent order. -/
theorem claim_C3_amended (R : RngModel) (seed : Nat) (cfg : SalesConfig)
    (b₁ b₂ : ℤ) (h1 : 0 < cfg.numRows) (hb1 : 0 < b₁) (hb2 : 0 < b₂)
    (h3 : 0 < cfg.numProducts) (h4 : 0 < cfg.numCustomers)
    (h5 : 0 < cfg.numStores) (h6 : 0 < cfg.days) :
    (salesDataRows R seed { cfg with chunkSize := b₁ }).length =
      (salesDataRows R seed { cfg with chunkSize := b₂ }).length := by
  rw [salesDataRows_length R seed { cfg with chunkSize := b₁ } h1 hb1 h3 h4
    h5 h6, salesDataRows_length R seed { cfg with chunkSize := b₂ } h1 hb2 h3
    h4 h5 h6]

theorem claim_C3_amended_witness :
    (salesDataRows streamModel 42 { c3BaseCfg with chunkSize := 1 }).length =
      (salesDataRows streamModel 42 { c3BaseCfg with chunkSize := 2 }).length :=
  claim_C3_amended streamModel 42 c3BaseCfg 1 2 (by decide) (by decide)
    (by decide) (by decide) (by decide) (by decide) (by decide)

/-- Claim C3 is false as stated: with the same seed and row count, batch
sizes 1 and 2 already yield different rows (the second row's date differs),
because the chunk loop samples every column per batch and therefore consumes
the generator stream in a batch-size-dependent order. -/
theorem claim_C3_counterexample :
    salesDataRows streamModel 42 { c3BaseCfg with chunkSize := 1 } ≠
      salesDataRows streamModel 42 { c3BaseCfg with chunkSize := 2 } := by
  intro h
  have h2 := congrArg (fun l => (l.map SalesRow.date).getD 1 0) h
  simp [salesDataRows, create_sales_dataset, c3BaseCfg, salesPrep, salesLoop,
    salesChunk, intVec, choiceVec, betaVec, paretoVec, lognormalVec,
    dataRowsOfEvents, streamModel, RngModel.defaultRng, FsEvent.rows,
    show List.range 2 = [0, 1] from rfl,
    show List.range 1 = [0] from rfl] at h2

/-- Claim C4 (corrected): in every sales row the emitted revenue is
`round2(quantity * unit_price * (1 - d))` for the *raw* sampled discount `d`
(clipped to `[0, 0.6]`), while the emitted `discount_rate` column is `d`
rounded to 4 decimal places; and in every orders row the emitted price is
`round2(unit_price * quantity)` with the unit price taken from the
per-product price table at the row's `product_id`. -/
theorem claim_C4_amended (R : RngModel) (seed : Nat) (scfg : SalesConfig)
    (ocfg : OrdersConfig) :
    (∀ r ∈ salesDataRows R seed scfg,
      ∃ d : ℚ, r.discount_rate = round4 d ∧
        r.revenue = round2 ((r.quantity : ℚ) * r.unit_price * (1 - d)) ∧
        0 ≤ d ∧ d ≤ 60/100) ∧
    (∀ r ∈ ordersDataRows R seed ocfg,
      r.price = round2 ((ordersPrep R seed ocfg).product_unit_price.getD
        (r.product_id - 1).toNat 0 * (r.quantity : ℚ))) :=
  ⟨salesDataRows_forall R seed scfg _
      (fun start c g => salesChunk_discount R scfg _ start c g),
   ordersDataRows_forall R seed ocfg _
      (fun cs c g => ordersChunk_price R ocfg _ cs c g)⟩

theorem claim_C4_amended_witness :
    (∃ d : ℚ,
      ((salesDataRows streamModel 42 defSalesCfg).getD 0 default).discount_rate
        = round4 d ∧
      ((salesDataRows streamModel 42 defSalesCfg).getD 0 default).revenue =
        round2
          ((((salesDataRows streamModel 42 defSalesCfg).getD 0
            default).quantity : ℚ) *
          ((salesDataRows streamModel 42 defSalesCfg).getD 0
            default).unit_price * (1 - d)) ∧
      0 ≤ d ∧ d ≤ 60/100) ∧
    ((ordersDataRows streamModel 42 defOrdersCfg).getD 0 default).price =
      round2 ((ordersPrep streamModel 42 defOrdersCfg).product_unit_price.getD
        (((ordersDataRows streamModel 42 defOrdersCfg).getD 0
          default).product_id - 1).toNat 0 *
        (((ordersDataRows streamModel 42 defOrdersCfg).getD 0
          default).quantity : ℚ)) := by
  have hs := (claim_C4_amended streamModel 42 defSalesCfg defOrdersCfg).1
    ((salesDataRows streamModel 42 defSalesCfg).getD 0 default)
    (getD_zero_mem _ _ (by
      rw [salesDataRows_length streamModel 42 defSalesCfg (by decide)
        (by decide) (by decide) (by decide) (by decide) (by decide)]
      decide))
  have ho := (claim_C4_amended streamModel 42 defSalesCfg defOrdersCfg).2
    ((ordersDataRows streamModel 42 defOrdersCfg).getD 0 default)
    (getD_zero_mem _ _ (by
      rw [ordersDataRows_length streamModel 42 defOrdersCfg (by decide)
        (by decide) (by decide) (by decide) (by decide) (by decide)]
      decide))
  exact ⟨hs, ho⟩

/-- Claim C4 is false as stated: recomputing
`round2(quantity * unit_price * (1 - discount_rate))` from a row's *emitted*
values can differ from the emitted revenue by far more than `1e-9`, because
the emitted `discount_rate` is rounded to 4 decimals while the revenue was
computed from the raw discount.  Here the raw discount 0.00004 is emitted as
0.0, the emitted revenue is 2499.90, and the recomputation gives 2500.00. -/
theorem claim_C4_counterexample :
    ¬(|((salesDataRows c4Model 0 c4Cfg).getD 0 default).revenue -
        round2 ((((salesDataRows c4Model 0 c4Cfg).getD 0 default).quantity : ℚ) *
          ((salesDataRows c4Model 0 c4Cfg).getD 0 default).unit_price *
          (1 - ((salesDataRows c4Model 0 c4Cfg).getD 0
            default).discount_rate))| ≤ 1/1000000000) := by
  have he : salesDataRows c4Model 0 c4Cfg =
      [{ transaction_id := 1, date := 0, customer_id := 1, store_id := 1,
         channel := "online", region := "North", product_id := 1,
         quantity := 5, unit_price := 500, discount_rate := 0,
         revenue := 24999/10 }] := by
    simp [salesDataRows, create_sales_dataset, c4Cfg, salesPrep, salesLoop,
      salesChunk, intVec, choiceVec, betaVec, paretoVec, lognormalVec,
      dataRowsOfEvents, c4Model, RngModel.defaultRng, FsEvent.rows,
      salesChannels, salesRegions, show List.range 1 = [0] from rfl]
    norm_num [round2, round4, clipQ, round_eq]
  rw [he]
  norm_num [round2, round_eq, List.getD]
  rw [abs_of_pos (by norm_num : (0 : ℚ) < 1/10)]
  norm_num

/-- Claim C5 (corrected): for every invalid configuration (non-positive row
count, batch size, domain size, or day count) the sales generator reports a
`ValueError` and writes nothing to the output file — its trace contains no
write event — but the destination directory *is* created, because `mkdir`
runs before validation. -/
theorem claim_C5_amended (R : RngModel) (seed : Nat) (cfg : SalesConfig)
    (h : cfg.numRows ≤ 0 ∨ cfg.chunkSize ≤ 0 ∨ cfg.numProducts ≤ 0 ∨
      cfg.numCustomers ≤ 0 ∨ cfg.numStores ≤ 0 ∨ cfg.days ≤ 0) :
    (∃ e, (create_sales_dataset R seed cfg).2 = Except.error e) ∧
    writeMetas (create_sales_dataset R seed cfg).1 = [] ∧
    (create_sales_dataset R seed cfg).1 = [FsEvent.mkdir cfg.folder] := by
  simp only [create_sales_dataset]
  split_ifs with h1 h2 h3 h4
  · exact ⟨⟨_, rfl⟩, rfl, rfl⟩
  · exact ⟨⟨_, rfl⟩, rfl, rfl⟩
  · exact ⟨⟨_, rfl⟩, rfl, rfl⟩
  · exact ⟨⟨_, rfl⟩, rfl, rfl⟩
  · omega

theorem claim_C5_amended_witness :
    (∃ e, (create_sales_dataset streamModel 42
      { defSalesCfg with numRows := 0 }).2 = Except.error e) ∧
    writeMetas (create_sales_dataset streamModel 42
      { defSalesCfg with numRows := 0 }).1 = [] ∧
    (create_sales_dataset streamModel 42
      { defSalesCfg with numRows := 0 }).1 = [FsEvent.mkdir "data"] :=
  claim_C5_amended streamModel 42 { defSalesCfg with numRows := 0 }
    (Or.inl (by decide))

/-- Claim C5 is false as stated: a failing validation does *not* happen
before all filesystem effects.  With `num_rows = 0` the call returns the
`ValueError`, yet its trace contains the directory-creation event — line 148
(`folder.mkdir(...)`) runs before the validation block at lines 180-187. -/
theorem claim_C5_counterexample :
    (create_sales_dataset streamModel 42
      { defSalesCfg with numRows := 0 }).2 =
        Except.error "num_rows must be > 0" ∧
    FsEvent.mkdir "data" ∈ (create_sales_dataset streamModel 42
      { defSalesCfg with numRows := 0 }).1 := by
  constructor
  · rfl
  · show FsEvent.mkdir "data" ∈ [FsEvent.mkdir "data"]
    exact List.mem_singleton.mpr rfl

/-- Claim C6 is a code bug: the script's comment declares the weekday-weight
array ordered Monday..Sunday (so that Friday-Sunday get the high weights),
but the index `(epoch_days + 4) % 7` is the Sunday-first weekday formula.
On 2024-01-07 — a Sunday inside the default window, Monday-first index 6 —
the script applies weight 0.95 (the Monday slot) instead of the intended
1.12, so Sunday gets a low weight while Thursday gets 1.08. -/
theorem claim_C6_weekday_bug :
    civilFromDays 19729 = (2024, 1, 7) ∧
    mondayWeekday 19729 = 6 ∧
    npWeekdayIndex 19729 = 0 ∧
    salesWeekdayWeights.getD (npWeekdayIndex 19729) 0 = 95/100 ∧
    salesWeekdayWeights.getD 6 0 = 112/100 ∧
    ¬(102/100 ≤ salesWeekdayWeights.getD (npWeekdayIndex 19729) 0) ∧
    (salesDateWeights 19723 366).getD 6 0 = 95/100 ∧
    (ordersDateWeights 19723 366).getD 6 0 = 95/100 := by
  refine ⟨by decide, by decide, by decide, rfl, rfl, by
    norm_num [npWeekdayIndex, salesWeekdayWeights], ?_, ?_⟩
  · rw [salesDateWeights, range_map_getD _ _ _ _ (by norm_num : 6 < 366)]
    norm_num [show ((19723 : ℤ) + (6 : ℕ)) = 19729 from by norm_num,
      show npWeekdayIndex 19729 = 0 from by decide,
      show monthOfDay 19729 = 1 from by decide,
      salesWeekdayWeights, salesMonthWeights]
  · rw [ordersDateWeights, range_map_getD _ _ _ _ (by norm_num : 6 < 366)]
    norm_num [show ((19723 : ℤ) + (6 : ℕ)) = 19729 from by norm_num,
      show npWeekdayIndex 19729 = 0 from by decide,
      salesWeekdayWeights]

/-- Claim C7: in every generated row of the sales, ratings, transactions and
orders tables, each sampled identifier column (`product_id`, `customer_id`,
`store_id`, `user_id`) lies in the inclusive range `[1, N]` for its
configured domain size `N`. -/
theorem claim_C7_id_bounds (R : RngModel) (seed : Nat) (scfg : SalesConfig)
    (rcfg : RatingsConfig) (tcfg : TransactionsConfig) (ocfg : OrdersConfig)
    (hs1 : 0 < scfg.numProducts) (hs2 : 0 < scfg.numCustomers)
    (hs3 : 0 < scfg.numStores) (hr1 : 0 < rcfg.numUsers)
    (hr2 : 0 < rcfg.numProducts) (ht1 : 0 < tcfg.numCustomers)
    (ht2 : 0 < tcfg.numProducts) (ho1 : 0 < ocfg.numProducts)
    (ho2 : 0 < ocfg.numCustomers) (ho3 : 0 < ocfg.numStores) :
    (∀ r ∈ salesDataRows R seed scfg,
      1 ≤ r.product_id ∧ r.product_id ≤ scfg.numProducts ∧
      1 ≤ r.customer_id ∧ r.customer_id ≤ scfg.numCustomers ∧
      1 ≤ r.store_id ∧ r.store_id ≤ scfg.numStores) ∧
    (∀ r ∈ ratingsDataRows R seed rcfg,
      1 ≤ r.user_id ∧ r.user_id ≤ rcfg.numUsers ∧
      1 ≤ r.product_id ∧ r.product_id ≤ rcfg.numProducts) ∧
    (∀ r ∈ transactionsDataRows R seed tcfg,
      1 ≤ r.customer_id ∧ r.customer_id ≤ tcfg.numCustomers ∧
      1 ≤ r.product_id ∧ r.product_id ≤ tcfg.numProducts) ∧
    (∀ r ∈ ordersDataRows R seed ocfg,
      1 ≤ r.product_id ∧ r.product_id ≤ ocfg.numProducts ∧
      1 ≤ r.customer_id ∧ r.customer_id ≤ ocfg.numCustomers ∧
      1 ≤ r.store_id ∧ r.store_id ≤ ocfg.numStores) :=
  ⟨salesDataRows_forall R seed scfg _
      (fun start c g => salesChunk_bounds R scfg _ start c g hs1 hs2 hs3),
   ratingsDataRows_forall R seed rcfg _
      (fun dp c g => ratingsChunk_bounds R rcfg dp c g hr1 hr2),
   transactionsDataRows_forall R seed tcfg _
      (fun ypa cs c g => transactionsChunk_bounds R tcfg ypa cs c g ht1 ht2),
   ordersDataRows_forall R seed ocfg _
      (fun cs c g => ordersChunk_bounds R ocfg _ cs c g ho1 ho2 ho3)⟩

theorem claim_C7_id_bounds_witness :
    (1 ≤ ((salesDataRows streamModel 42 defSalesCfg).getD 0
        default).product_id ∧
      ((salesDataRows streamModel 42 defSalesCfg).getD 0 default).product_id ≤
        defSalesCfg.numProducts ∧
      1 ≤ ((salesDataRows streamModel 42 defSalesCfg).getD 0
        default).customer_id ∧
      ((salesDataRows streamModel 42 defSalesCfg).getD 0
        default).customer_id ≤ defSalesCfg.numCustomers ∧
      1 ≤ ((salesDataRows streamModel 42 defSalesCfg).getD 0
        default).store_id ∧
      ((salesDataRows streamModel 42 defSalesCfg).getD 0 default).store_id ≤
        defSalesCfg.numStores) ∧
    (1 ≤ ((ratingsDataRows streamModel 42 defRatingsCfg).getD 0
        default).user_id ∧
      ((ratingsDataRows streamModel 42 defRatingsCfg).getD 0
        default).user_id ≤ defRatingsCfg.numUsers ∧
      1 ≤ ((ratingsDataRows streamModel 42 defRatingsCfg).getD 0
        default).product_id ∧
      ((ratingsDataRows streamModel 42 defRatingsCfg).getD 0
        default).product_id ≤ defRatingsCfg.numProducts) ∧
    (1 ≤ ((transactionsDataRows streamModel 42 defTransactionsCfg).getD 0
        default).customer_id ∧
      ((transactionsDataRows streamModel 42 defTransactionsCfg).getD 0
        default).customer_id ≤ defTransactionsCfg.numCustomers ∧
      1 ≤ ((transactionsDataRows streamModel 42 defTransactionsCfg).getD 0
        default).product_id ∧
      ((transactionsDataRows streamModel 42 defTransactionsCfg).getD 0
        default).product_id ≤ defTransactionsCfg.numProducts) ∧
    (1 ≤ ((ordersDataRows streamModel 42 defOrdersCfg).getD 0
        default).product_id ∧
      ((ordersDataRows streamModel 42 defOrdersCfg).getD 0
        default).product_id ≤ defOrdersCfg.numProducts ∧
      1 ≤ ((ordersDataRows streamModel 42 defOrdersCfg).getD 0
        default).customer_id ∧
      ((ordersDataRows streamModel 42 defOrdersCfg).getD 0
        default).customer_id ≤ defOrdersCfg.numCustomers ∧
      1 ≤ ((ordersDataRows streamModel 42 defOrdersCfg).getD 0
        default).store_id ∧
      ((ordersDataRows streamModel 42 defOrdersCfg).getD 0 default).store_id ≤
        defOrdersCfg.numStores) := by
  obtain ⟨hs, hr, ht, ho⟩ := claim_C7_id_bounds streamModel 42 defSalesCfg
    defRatingsCfg defTransactionsCfg defOrdersCfg (by decide) (by decide)
    (by decide) (by decide) (by decide) (by decide) (by decide) (by decide)
    (by decide) (by decide)
  refine ⟨hs _ (getD_zero_mem _ _ ?_), hr _ (getD_zero_mem _ _ ?_),
    ht _ (getD_zero_mem _ _ ?_), ho _ (getD_zero_mem _ _ ?_)⟩
  · rw [salesDataRows_length streamModel 42 defSalesCfg (by decide)
      (by decide) (by decide) (by decide) (by decide) (by decide)]
    decide
  · rw [ratingsDataRows_length streamModel 42 defRatingsCfg (by decide)
      (by decide) (by decide) (by decide) (by decide)]
    decide
  · rw [transactionsDataRows_length streamModel 42 defTransactionsCfg
      (by decide) (by decide) (by decide) (by decide) (by decide)]
    decide
  · rw [ordersDataRows_length streamModel 42 defOrdersCfg (by decide)
      (by decide) (by decide) (by decide) (by decide) (by decide)]
    decide

/-- Claim C8: a `year_prob` vector whose length is not 3 makes
`create_transactions_dataset` fail with a `ValueError` and write no data
rows at all. -/
theorem claim_C8_year_prob (R : RngModel) (seed : Nat)
    (cfg : TransactionsConfig) (h : cfg.yearProb.length ≠ 3) :
    (∃ e, (create_transactions_dataset R seed cfg).2 = Except.error e) ∧
    transactionsDataRows R seed cfg = [] := by
  simp only [transactionsDataRows, create_transactions_dataset]
  split_ifs with h1 h2 h3
  · exact ⟨⟨_, rfl⟩, rfl⟩
  · exact ⟨⟨_, rfl⟩, rfl⟩
  · exact ⟨⟨_, rfl⟩, rfl⟩
  · exact ⟨⟨_, rfl⟩, rfl⟩

theorem claim_C8_year_prob_witness :
    (∃ e, (create_transactions_dataset streamModel 42
      { defTransactionsCfg with yearProb := [1/2, 1/2] }).2 =
        Except.error e) ∧
    transactionsDataRows streamModel 42
      { defTransactionsCfg with yearProb := [1/2, 1/2] } = [] :=
  claim_C8_year_prob streamModel 42
    { defTransactionsCfg with yearProb := [1/2, 1/2] } (by decide)

/-- Claim C9: for every valid configuration, replaying the write trace of a
sales run yields the header line (with the schema's column names, in order)
exactly once as the first line, followed by all data rows; the first batch
is written in overwrite mode with the header and every later batch is
appended without one. -/
theorem claim_C9_header_once (R : RngModel) (seed : Nat) (cfg : SalesConfig)
    (h1 : 0 < cfg.numRows) (h2 : 0 < cfg.chunkSize) (h3 : 0 < cfg.numProducts)
    (h4 : 0 < cfg.numCustomers) (h5 : 0 < cfg.numStores) (h6 : 0 < cfg.days) :
    replay (create_sales_dataset R seed cfg).1 =
      CsvLine.header salesColumns ::
        (salesDataRows R seed cfg).map CsvLine.row ∧
    writeMetas (create_sales_dataset R seed cfg).1 =
      (true, some salesColumns) ::
        List.replicate
          ((batchSizes cfg.numRows.toNat cfg.chunkSize.toNat).length - 1)
          (false, none) := by
  have hc : (1 : ℕ) ≤ cfg.numRows.toNat ∧ 0 < cfg.chunkSize.toNat :=
    ⟨by omega, by omega⟩
  constructor
  · simp only [salesDataRows, create_sales_dataset]
    rw [if_neg (by omega), if_neg (by omega), if_neg (by omega),
      if_neg (by omega)]
    simp only [replay, List.singleton_append, List.foldl_cons]
    rw [show applyEvent ([] : List (CsvLine SalesRow))
      (FsEvent.mkdir cfg.folder) = [] from rfl]
    rw [salesLoop_replay R cfg (salesPrep R seed cfg) cfg.numRows.toNat
      cfg.chunkSize.toNat 1 (salesPrep R seed cfg).rng false []]
    rw [if_pos hc]
    simp [dataRowsOfEvents_cons, FsEvent.rows]
  · simp only [create_sales_dataset]
    rw [if_neg (by omega), if_neg (by omega), if_neg (by omega),
      if_neg (by omega)]
    rw [List.singleton_append, writeMetas_cons]
    rw [salesLoop_writeMetas R cfg (salesPrep R seed cfg) cfg.numRows.toNat
      cfg.chunkSize.toNat 1 (salesPrep R seed cfg).rng false]
    rw [if_pos hc]
    simp [batchSizes]

theorem claim_C9_header_once_witness :
    replay (create_sales_dataset streamModel 42 defSalesCfg).1 =
      CsvLine.header salesColumns ::
        (salesDataRows streamModel 42 defSalesCfg).map CsvLine.row ∧
    writeMetas (create_sales_dataset streamModel 42 defSalesCfg).1 =
      (true, some salesColumns) ::
        List.replicate
          ((batchSizes defSalesCfg.numRows.toNat
            defSalesCfg.chunkSize.toNat).length - 1)
          (false, none) :=
  claim_C9_header_once streamModel 42 defSalesCfg (by decide) (by decide)
    (by decide) (by decide) (by decide) (by decide)

/-- Claim C10: in every customers row, the state is the fixed function of the
row's city given by New York ↦ NY, Los Angeles ↦ CA, Chicago ↦ IL,
Houston ↦ TX, and no other city/state pair ever occurs. -/
theorem claim_C10_city_state (R : RngModel) (seed : Nat)
    (cfg : CustomersConfig) :
    ∀ r ∈ customersDataRows R seed cfg,
      r.state = state_by_city r.city ∧
      (r.city, r.state) ∈ [("New York", "NY"), ("Los Angeles", "CA"),
        ("Chicago", "IL"), ("Houston", "TX")] :=
  customersDataRows_forall R seed cfg _
    (fun cs c g => customersChunk_citystate R cfg cs c g)

theorem claim_C10_city_state_witness :
    ((customersDataRows streamModel 42 defCustomersCfg).getD 0
        default).state =
      state_by_city ((customersDataRows streamModel 42 defCustomersCfg).getD 0
        default).city ∧
    (((customersDataRows streamModel 42 defCustomersCfg).getD 0
        default).city,
      ((customersDataRows streamModel 42 defCustomersCfg).getD 0
        default).state) ∈
      [("New York", "NY"), ("Los Angeles", "CA"), ("Chicago", "IL"),
        ("Houston", "TX")] :=
  claim_C10_city_state streamModel 42 defCustomersCfg
    ((customersDataRows streamModel 42 defCustomersCfg).getD 0 default)
    (getD_zero_mem _ _ (by
      rw [customersDataRows_length streamModel 42 defCustomersCfg (by decide)
        (by decide) (by decide) (by decide)]
      decide))

end DataGen
